import Mathlib

/-!
Verification development for the ThrottleTune repository.

Shallow embedding of the engine-audio simulation core:
* `main_final.py`: throttle conditioning, the `SoundManager` voice engine,
  the `EngineSimulation` state machine and its playful-gesture detector.
* `Main_REV3.py`: the Hellcat engine simulation (virtual RPM model with
  gear stepping), the Hellcat one-shot rev queue, and the
  `TripleCarSystem` profile-switch coordinator.

Machine floats are modelled as rationals; pygame mixer channels are
modelled as records carrying the currently playing clip, the last set
volume and a fading flag (`get_busy` is "a clip is loaded", `get_sound`
returns that clip, `stop` clears it, `fadeout` raises the fading flag and
leaves the clip sounding until the backend finishes the fade).
Randomness (`random.choice`) is irrelevant to every claim and the chosen
clip is fixed; external inputs (clip availability, channel-end events,
`time.time()` readings) are explicit parameters.
-/

namespace ThrottleTune

/-! ## main_final.py : constants -/

def MIN_ADC_VALUE : ℚ := 15823
def MAX_ADC_VALUE : ℚ := 65535
def THROTTLE_DEADZONE_LOW : ℚ := 1/20
def SUSTAINED_100_THROTTLE_TIME : ℚ := 3/2
def GESTURE_WINDOW_TIME : ℚ := 3/4
def GESTURE_MAX_POINTS : ℕ := 20
def FADE_OUT_MS : ℚ := 300
def CROSSFADE_DURATION_MS : ℚ := 500
def IDLE_TRANSITION_SPEED : ℚ := 5/2
def TURBO_BOV_COOLDOWN : ℚ := 1
def HIGH_REV_LIMITER_COOLDOWN : ℚ := 3/2
def FULL_ACCEL_RESET_IDLE_TIME : ℚ := 3
def NORMAL_IDLE_VOLUME : ℚ := 7/10
def LOW_IDLE_VOLUME_DURING_SFX : ℚ := 3/20
def VERY_LOW_IDLE_VOLUME_DURING_LAUNCH : ℚ := 1/20
def MASTER_ENGINE_VOL : ℚ := 1/20
def LIGHT_BLIP_VOLUME : ℚ := 9/10
def LAUNCH_CONTROL_THROTTLE_MIN : ℚ := 11/20
def LAUNCH_CONTROL_THROTTLE_MAX : ℚ := 17/20
def LAUNCH_CONTROL_HOLD_DURATION : ℚ := 1/2
def LAUNCH_CONTROL_ENGAGE_VOL : ℚ := 1
def LAUNCH_CONTROL_HOLD_VOL : ℚ := 1
def LIGHT_BLIP_GESTURE_COOLDOWN : ℚ := 1/4
def GESTURE_RETRIGGER_LOCKOUT : ℚ := 3/10
def THROTTLE_SMOOTHING_WINDOW_SIZE : ℕ := 5

/-! ## main_final.py : throttle conditioning

`get_throttle_percentage_from_adc` maps a raw ADC reading to [0,1] by a
clamped two-point calibration; the main loop keeps a deque of the last
`THROTTLE_SMOOTHING_WINDOW_SIZE` conditioned samples (pre-filled with
zeros) and uses their arithmetic mean as the smoothed throttle. -/

def get_throttle_percentage_from_adc (rawAdcValue : ℚ) : ℚ :=
  if MAX_ADC_VALUE = MIN_ADC_VALUE then 0
  else
    let clampedValue := max MIN_ADC_VALUE (min rawAdcValue MAX_ADC_VALUE)
    (clampedValue - MIN_ADC_VALUE) / (MAX_ADC_VALUE - MIN_ADC_VALUE)

/-- `collections.deque(maxlen=W).append`: drop the oldest entry once the
buffer is at capacity, then append at the back. -/
def dequeAppend {α : Type} (maxlen : ℕ) (buf : List α) (x : α) : List α :=
  if buf.length < maxlen then buf ++ [x] else buf.drop 1 ++ [x]

/-- The throttle smoothing buffer as pre-filled in `main`:
`THROTTLE_SMOOTHING_WINDOW_SIZE` zero samples. -/
def initialThrottleBuffer : List ℚ :=
  List.replicate THROTTLE_SMOOTHING_WINDOW_SIZE 0

/-- One main-loop conditioning step: condition the raw ADC value and push
it into the smoothing buffer. -/
def conditionStep (buf : List ℚ) (rawAdc : ℚ) : List ℚ :=
  dequeAppend THROTTLE_SMOOTHING_WINDOW_SIZE buf
    (get_throttle_percentage_from_adc rawAdc)

/-- The smoothing buffer contents after feeding a whole history of raw
ADC samples. -/
def bufferAfter (rawAdcHistory : List ℚ) : List ℚ :=
  rawAdcHistory.foldl conditionStep initialThrottleBuffer

/-- `sum(throttle_buffer) / len(throttle_buffer)`. -/
def bufferMean (buf : List ℚ) : ℚ := buf.sum / buf.length

/-- The smoothed throttle after feeding a raw ADC history. -/
def smoothedAfter (rawAdcHistory : List ℚ) : ℚ :=
  bufferMean (bufferAfter rawAdcHistory)

/-! ## main_final.py : SoundManager -/

/-- The named sound assets of `SoundManager.load_sounds`.  The three
light-blip clips are interchangeable for every property of interest and
are modelled by the single key `lightBlip`. -/
inductive SKey where
  | idle | lightBlip | turboBov | revLimiter | accelGears | cruising
  | decelDownshifts | starter | lcEngage | lcHoldLoop
  deriving DecidableEq, Repr

/-- A pygame mixer channel: the clip it is playing (`none` when idle),
the volume last set on it, and whether a `fadeout` is in progress. -/
structure Chan where
  playing : Option SKey
  volume : ℚ
  fading : Bool
  deriving DecidableEq, Repr

def Chan.play (c : Chan) (k : SKey) : Chan := { c with playing := some k, fading := false }

def Chan.stop (c : Chan) : Chan := { c with playing := none, fading := false }

def Chan.fadeout (c : Chan) : Chan :=
  if c.playing.isSome then { c with fading := true } else c

def Chan.getBusy (c : Chan) : Bool := c.playing.isSome

def Chan.setVolume (c : Chan) (v : ℚ) : Chan := { c with volume := v }

/-- `SoundManager` state (`main_final.py`).  `loaded k` tells whether the
asset store resolved clip `k` (a `None` sound object otherwise); for
`lightBlip` it means at least one of the three blip files loaded.
`blipChannels` are the dedicated light-blip channels. -/
structure SM where
  loaded : SKey → Bool
  channelIdle : Chan
  channelSfx : Chan
  blipChannels : List Chan
  idleTargetVolume : ℚ
  idleCurrentVolume : ℚ
  idleIsFading : Bool
  waitingForLaunchHoldLoop : Bool
  launchControlSoundsActive : Bool
  channelLongA : Chan
  channelLongB : Chan
  activeLongIsA : Bool
  transitioningLongSound : Bool
  transitionStartTime : ℚ

namespace SM

/-- `SoundManager.update`: move from the launch-control engage clip to
the hold loop once the engage clip has finished, and drop the
launch-control-active flag when the SFX channel no longer carries a
launch-control sound. -/
def update (sm : SM) : SM :=
  let currentSfx := sm.channelSfx.playing
  let sm :=
    if sm.waitingForLaunchHoldLoop then
      if ¬sm.channelSfx.getBusy ∨ currentSfx ≠ some SKey.lcEngage then
        if sm.loaded SKey.lcHoldLoop then
          { sm with
            channelSfx := ((sm.channelSfx.setVolume
              (LAUNCH_CONTROL_HOLD_VOL * MASTER_ENGINE_VOL)).play SKey.lcHoldLoop),
            waitingForLaunchHoldLoop := false }
        else
          { sm with launchControlSoundsActive := false,
                    waitingForLaunchHoldLoop := false }
      else sm
    else sm
  let currentSfx := sm.channelSfx.playing
  if sm.launchControlSoundsActive then
    if ¬sm.waitingForLaunchHoldLoop ∧
        (¬sm.channelSfx.getBusy ∨
          (currentSfx ≠ some SKey.lcEngage ∧ currentSfx ≠ some SKey.lcHoldLoop)) then
      { sm with launchControlSoundsActive := false }
    else sm
  else sm

/-- `SoundManager.play_idle`. -/
def playIdle (sm : SM) : SM :=
  if sm.loaded SKey.idle then
    let ch :=
      if ¬sm.channelIdle.getBusy ∨ sm.channelIdle.playing ≠ some SKey.idle then
        sm.channelIdle.play SKey.idle
      else sm.channelIdle
    let cur := sm.idleTargetVolume
    { sm with
      channelIdle := ch.setVolume (cur * MASTER_ENGINE_VOL),
      idleCurrentVolume := cur,
      idleIsFading := decide (|cur - sm.idleTargetVolume| > 1/100) }
  else sm

/-- `SoundManager.set_idle_target_volume`. -/
def setIdleTargetVolume (sm : SM) (targetVolume : ℚ) (instant : Bool) : SM :=
  let targetVolume := max 0 (min 1 targetVolume)
  if |sm.idleTargetVolume - targetVolume| > 1/100 ∨ instant then
    let sm := { sm with idleTargetVolume := targetVolume }
    if instant then
      let ch :=
        if sm.channelIdle.playing.isSome then
          sm.channelIdle.setVolume (targetVolume * MASTER_ENGINE_VOL)
        else sm.channelIdle
      { sm with idleCurrentVolume := targetVolume, channelIdle := ch,
                idleIsFading := false }
    else
      if |sm.idleCurrentVolume - targetVolume| > 1/100 then
        { sm with idleIsFading := true }
      else sm
  else sm

/-- `SoundManager.update_idle_fade`. -/
def updateIdleFade (sm : SM) (dt : ℚ) : SM :=
  if sm.idleIsFading ∧ sm.channelIdle.getBusy then
    let sm :=
      if |sm.idleCurrentVolume - sm.idleTargetVolume| < 1/100 then
        { sm with idleCurrentVolume := sm.idleTargetVolume, idleIsFading := false }
      else if sm.idleCurrentVolume < sm.idleTargetVolume then
        { sm with
          idleCurrentVolume :=
            min (sm.idleCurrentVolume + IDLE_TRANSITION_SPEED * dt) sm.idleTargetVolume }
      else
        { sm with
          idleCurrentVolume :=
            max (sm.idleCurrentVolume - IDLE_TRANSITION_SPEED * dt) sm.idleTargetVolume }
    if sm.channelIdle.playing.isSome then
      { sm with
        channelIdle :=
          sm.channelIdle.setVolume (sm.idleCurrentVolume * MASTER_ENGINE_VOL) }
    else sm
  else sm

/-- `SoundManager.play_light_blip`: play the chosen blip on the first
free dedicated blip channel, if any. -/
def playBlipOnFirstFree : List Chan → (List Chan × Bool)
  | [] => ([], false)
  | c :: rest =>
      if ¬c.getBusy then
        (((c.setVolume (LIGHT_BLIP_VOLUME * MASTER_ENGINE_VOL)).play SKey.lightBlip) :: rest,
          true)
      else
        let (rest', ok) := playBlipOnFirstFree rest
        (c :: rest', ok)

def playLightBlip (sm : SM) : SM × Bool :=
  if sm.blipChannels.isEmpty then (sm, false)
  else if ¬sm.loaded SKey.lightBlip then (sm, false)
  else
    let (chs, ok) := playBlipOnFirstFree sm.blipChannels
    ({ sm with blipChannels := chs }, ok)

/-- `SoundManager.is_launch_control_active`. -/
def isLaunchControlActive (sm : SM) : Bool :=
  sm.launchControlSoundsActive || sm.waitingForLaunchHoldLoop

/-- `SoundManager.stop_launch_control_sequence`. -/
def stopLaunchControlSequence (sm : SM) (fadeMs : ℚ) : SM :=
  let currentSfx := sm.channelSfx.playing
  let sm :=
    if sm.channelSfx.getBusy ∧
        (currentSfx = some SKey.lcEngage ∨ currentSfx = some SKey.lcHoldLoop) then
      if fadeMs > 0 then { sm with channelSfx := sm.channelSfx.fadeout }
      else { sm with channelSfx := sm.channelSfx.stop }
    else sm
  { sm with waitingForLaunchHoldLoop := false, launchControlSoundsActive := false }

/-- `SoundManager.play_turbo_or_limiter_sfx`. -/
def playTurboOrLimiterSfx (sm : SM) (soundKey : SKey) : SM × Bool :=
  if sm.loaded soundKey then
    let sm :=
      if sm.isLaunchControlActive then sm.stopLaunchControlSequence 100 else sm
    ({ sm with channelSfx := (sm.channelSfx.setVolume MASTER_ENGINE_VOL).play soundKey },
      true)
  else (sm, false)

/-- `SoundManager.play_starter_sfx`. -/
def playStarterSfx (sm : SM) : SM × Bool :=
  if sm.loaded SKey.starter then
    let currentSfx := sm.channelSfx.playing
    if ¬sm.channelSfx.getBusy ∨
        (currentSfx ≠ some SKey.lcEngage ∧ currentSfx ≠ some SKey.lcHoldLoop) then
      ({ sm with channelSfx := ((sm.channelSfx.stop.setVolume
          MASTER_ENGINE_VOL).play SKey.starter) }, true)
    else (sm, false)
  else (sm, false)

/-- `SoundManager.stop_turbo_limiter_sfx`: stop the SFX channel unless it
carries a launch-control sound. -/
def stopTurboLimiterSfx (sm : SM) : SM :=
  let currentSfx := sm.channelSfx.playing
  if currentSfx ≠ some SKey.lcEngage ∧ currentSfx ≠ some SKey.lcHoldLoop then
    { sm with channelSfx := sm.channelSfx.stop }
  else sm

/-- `SoundManager.is_turbo_limiter_sfx_busy`. -/
def isTurboLimiterSfxBusy (sm : SM) : Bool :=
  sm.channelSfx.getBusy &&
    (sm.channelSfx.playing ≠ some SKey.lcEngage &&
      sm.channelSfx.playing ≠ some SKey.lcHoldLoop)

/-- `SoundManager.any_playful_sfx_active`. -/
def anyPlayfulSfxActive (sm : SM) : Bool :=
  sm.blipChannels.any (fun c => c.getBusy) || sm.isTurboLimiterSfxBusy

/-- `SoundManager.stop_all_light_blips`. -/
def stopAllLightBlips (sm : SM) : SM :=
  { sm with blipChannels := sm.blipChannels.map Chan.stop }

/-- `SoundManager.play_launch_control_sequence`. -/
def playLaunchControlSequence (sm : SM) : SM × Bool :=
  if sm.loaded SKey.lcEngage then
    ({ sm with
        channelSfx := ((sm.channelSfx.stop.setVolume
          (LAUNCH_CONTROL_ENGAGE_VOL * MASTER_ENGINE_VOL)).play SKey.lcEngage),
        waitingForLaunchHoldLoop := true,
        launchControlSoundsActive := true }, true)
  else if sm.loaded SKey.lcHoldLoop then
    ({ sm with
        channelSfx := ((sm.channelSfx.stop.setVolume
          (LAUNCH_CONTROL_HOLD_VOL * MASTER_ENGINE_VOL)).play SKey.lcHoldLoop),
        waitingForLaunchHoldLoop := false,
        launchControlSoundsActive := true }, true)
  else ({ sm with launchControlSoundsActive := false }, false)

/-- The inactive member of the long-sequence channel pair. -/
def otherLongChannel (sm : SM) : Chan :=
  if sm.activeLongIsA then sm.channelLongB else sm.channelLongA

/-- The active member of the long-sequence channel pair. -/
def activeLongChannel (sm : SM) : Chan :=
  if sm.activeLongIsA then sm.channelLongA else sm.channelLongB

def setActiveLongChannel (sm : SM) (c : Chan) : SM :=
  if sm.activeLongIsA then { sm with channelLongA := c } else { sm with channelLongB := c }

def setOtherLongChannel (sm : SM) (c : Chan) : SM :=
  if sm.activeLongIsA then { sm with channelLongB := c } else { sm with channelLongA := c }

/-- `SoundManager.play_long_sequence` (`now` is `time.time()`; the
`loops` argument only affects how long the backend keeps the clip
sounding and is omitted). -/
def playLongSequence (sm : SM) (soundKey : SKey) (transitionFromOther : Bool)
    (now : ℚ) : SM :=
  if ¬sm.loaded soundKey then
    let sm := sm.setOtherLongChannel sm.otherLongChannel.stop
    let sm := sm.setActiveLongChannel sm.activeLongChannel.stop
    { sm with transitioningLongSound := false }
  else
    if ¬transitionFromOther then
      let sm := sm.setOtherLongChannel sm.otherLongChannel.stop
      let sm := sm.setActiveLongChannel
        ((sm.activeLongChannel.setVolume MASTER_ENGINE_VOL).play soundKey)
      { sm with transitioningLongSound := false }
    else
      let sm := sm.setActiveLongChannel sm.activeLongChannel.fadeout
      let sm := sm.setOtherLongChannel
        ((sm.otherLongChannel.setVolume 0).play soundKey)
      { sm with activeLongIsA := ¬sm.activeLongIsA,
                transitioningLongSound := true,
                transitionStartTime := now }

/-- `SoundManager.update_long_sequence_crossfade` (`now` is
`time.time()`; elapsed time is in milliseconds). -/
def updateLongSequenceCrossfade (sm : SM) (now : ℚ) : SM :=
  if sm.transitioningLongSound then
    let elapsedMs := (now - sm.transitionStartTime) * 1000
    let progress := min 1 (elapsedMs / CROSSFADE_DURATION_MS)
    let sm :=
      if sm.activeLongChannel.getBusy then
        sm.setActiveLongChannel
          (sm.activeLongChannel.setVolume (progress * MASTER_ENGINE_VOL))
      else sm
    if progress ≥ 1 then
      let sm := { sm with transitioningLongSound := false }
      if sm.activeLongChannel.getBusy then
        sm.setActiveLongChannel (sm.activeLongChannel.setVolume MASTER_ENGINE_VOL)
      else sm
    else sm
  else sm

/-- `SoundManager.is_long_sequence_busy`. -/
def isLongSequenceBusy (sm : SM) : Bool :=
  sm.channelLongA.getBusy || sm.channelLongB.getBusy || sm.transitioningLongSound

end SM

def NUM_LIGHT_BLIP_CHANNELS : ℕ := 3

/-- `SoundManager.__init__` for a given asset-store outcome: all
channels idle (a fresh pygame channel has volume 1), idle envelope at
the normal idle volume, long pair starting on channel A. -/
def SM.init (loaded : SKey → Bool) : SM where
  loaded := loaded
  channelIdle := { playing := none, volume := 1, fading := false }
  channelSfx := { playing := none, volume := 1, fading := false }
  blipChannels :=
    List.replicate NUM_LIGHT_BLIP_CHANNELS { playing := none, volume := 1, fading := false }
  idleTargetVolume := NORMAL_IDLE_VOLUME
  idleCurrentVolume := NORMAL_IDLE_VOLUME
  idleIsFading := false
  waitingForLaunchHoldLoop := false
  launchControlSoundsActive := false
  channelLongA := { playing := none, volume := 1, fading := false }
  channelLongB := { playing := none, volume := 1, fading := false }
  activeLongIsA := true
  transitioningLongSound := false
  transitionStartTime := 0

/-! ## main_final.py : EngineSimulation -/

/-- The state strings of `EngineSimulation`. -/
inductive EState where
  | ENGINE_OFF | STARTING | IDLING | PLAYFUL_REV | LAUNCH_HOLD
  | ACCELERATING | CRUISING | DECELERATING
  deriving DecidableEq, Repr

/-- `EngineSimulation` fields (`main_final.py`). `throttleHistory` holds
`(timestamp, smoothed throttle)` pairs, newest last, capped at
`GESTURE_MAX_POINTS`. -/
structure Engine where
  sm : SM
  state : EState
  currentThrottle : ℚ
  throttleHistory : List (ℚ × ℚ)
  peakThrottleInGesture : ℚ
  gestureStartTime : ℚ
  inPotentialGesture : Bool
  lastTurboBovTime : ℚ
  lastRevLimiterTime : ℚ
  lastLightBlipPlayedTime : ℚ
  gestureLockoutUntilTime : ℚ
  timeAt100Throttle : ℚ
  timeInIdle : ℚ
  playedFullAccelSequenceRecently : Bool
  timeInLaunchControlRange : ℚ

namespace Engine

/-- `EngineSimulation.__init__`. -/
def init (sm : SM) : Engine where
  sm := sm
  state := EState.ENGINE_OFF
  currentThrottle := 0
  throttleHistory := []
  peakThrottleInGesture := 0
  gestureStartTime := 0
  inPotentialGesture := false
  lastTurboBovTime := 0
  lastRevLimiterTime := 0
  lastLightBlipPlayedTime := 0
  gestureLockoutUntilTime := 0
  timeAt100Throttle := 0
  timeInIdle := 0
  playedFullAccelSequenceRecently := false
  timeInLaunchControlRange := 0

/-- The SFX dispatch tail of `_check_playful_gestures` (lines 649-672):
select the clip family from the gesture peak and fire it, subject to the
per-family cooldown.  Returns the engine plus `triggered_any_sfx`. -/
def gestureDispatch (e : Engine) (now currentPeak : ℚ) : Engine × Bool :=
  if currentPeak ≤ 2/5 then
    if now - e.lastLightBlipPlayedTime > LIGHT_BLIP_GESTURE_COOLDOWN then
      let p := e.sm.playLightBlip
      if p.2 then ({ e with sm := p.1, lastLightBlipPlayedTime := now }, true)
      else ({ e with sm := p.1 }, false)
    else (e, false)
  else if ¬e.sm.isTurboLimiterSfxBusy ∨ ¬e.sm.isLaunchControlActive then
    let e :=
      if e.sm.isLaunchControlActive then
        { e with sm := e.sm.stopLaunchControlSequence 50 }
      else e
    if 9/20 < currentPeak ∧ currentPeak ≤ 7/10 then
      if now - e.lastTurboBovTime > TURBO_BOV_COOLDOWN then
        let p := e.sm.playTurboOrLimiterSfx SKey.turboBov
        if p.2 then ({ e with sm := p.1, lastTurboBovTime := now }, true)
        else ({ e with sm := p.1 }, false)
      else (e, false)
    else if currentPeak > 7/10 then
      if now - e.lastRevLimiterTime > HIGH_REV_LIMITER_COOLDOWN then
        let p := e.sm.playTurboOrLimiterSfx SKey.revLimiter
        if p.2 then ({ e with sm := p.1, lastRevLimiterTime := now }, true)
        else ({ e with sm := p.1 }, false)
      else (e, false)
    else (e, false)
  else (e, false)

/-- The open-window tail of `_check_playful_gestures` (lines 629-678):
peak tracking, the window timeout, and the resolution test with its SFX
dispatch.  Runs when `in_potential_gesture` is set. -/
def gestureResolve (e : Engine) (currentTime oldThrottleValueForFrame : ℚ) :
    Engine × Option ℚ :=
  let e :=
    { e with peakThrottleInGesture := max e.peakThrottleInGesture e.currentThrottle }
  if currentTime - e.gestureStartTime > GESTURE_WINDOW_TIME then
    ({ e with inPotentialGesture := false }, none)
  else
    let isFallingAfterPeak :=
      e.currentThrottle < e.peakThrottleInGesture * (7/10) ∧
      e.currentThrottle < oldThrottleValueForFrame ∧
      e.currentThrottle ≤ THROTTLE_DEADZONE_LOW * (3/2)
    if isFallingAfterPeak ∧ e.peakThrottleInGesture > THROTTLE_DEADZONE_LOW + 1/50 then
      let currentPeak := e.peakThrottleInGesture
      let e :=
        { e with inPotentialGesture := false,
                 gestureLockoutUntilTime := currentTime + GESTURE_RETRIGGER_LOCKOUT }
      let d := gestureDispatch e currentTime currentPeak
      let e := d.1
      let e :=
        if d.2 then
          let e :=
            { e with sm := e.sm.setIdleTargetVolume LOW_IDLE_VOLUME_DURING_SFX false }
          let e :=
            if e.state = EState.IDLING ∨ e.state = EState.PLAYFUL_REV then
              { e with state := EState.PLAYFUL_REV }
            else e
          { e with timeAt100Throttle := 0 }
        else e
      (e, some currentPeak)
    else (e, none)

/-- `EngineSimulation._check_playful_gestures`.  The returned option is
the recognized gesture's peak throttle (`current_peak` at the resolution
point), `none` when no gesture resolves this call. -/
def checkPlayfulGestures (e : Engine) (currentTime oldThrottleValueForFrame : ℚ) :
    Engine × Option ℚ :=
  if e.sm.isLongSequenceBusy ∨ e.state = EState.LAUNCH_HOLD ∨ e.sm.isLaunchControlActive then
    ({ e with inPotentialGesture := false }, none)
  else
    let e :=
      if ¬e.inPotentialGesture ∧ currentTime ≥ e.gestureLockoutUntilTime then
        let isRisingFromIdle := e.throttleHistory.length < 2 ∨
          (((e.throttleHistory.reverse.get? 1).map Prod.snd).getD 1 ≤ THROTTLE_DEADZONE_LOW)
        if e.currentThrottle > THROTTLE_DEADZONE_LOW ∧ isRisingFromIdle then
          { e with inPotentialGesture := true, gestureStartTime := currentTime,
                   peakThrottleInGesture := e.currentThrottle }
        else e
      else e
    if e.inPotentialGesture then gestureResolve e currentTime oldThrottleValueForFrame
    else (e, none)

/-- Continuation of the IDLING/PLAYFUL_REV branch of
`EngineSimulation.update` after the launch-control engagement check
(gesture check, then the sustained-full-throttle acceleration check). -/
def idlingAfterLc (e : Engine) (dt now previousThrottleThisFrame : ℚ) : Engine :=
  let e :=
    if e.state ≠ EState.LAUNCH_HOLD then
      (checkPlayfulGestures e now previousThrottleThisFrame).1
    else e
  if e.currentThrottle ≥ 49/50 then
    let e := { e with timeAt100Throttle := e.timeAt100Throttle + dt }
    if e.timeAt100Throttle ≥ SUSTAINED_100_THROTTLE_TIME ∧
        ¬e.playedFullAccelSequenceRecently ∧
        e.state ≠ EState.ACCELERATING ∧ e.state ≠ EState.LAUNCH_HOLD then
      let e := { e with state := EState.ACCELERATING }
      let e := { e with sm := e.sm.setIdleTargetVolume 0 true }
      let e := { e with sm := e.sm.stopLaunchControlSequence 50 }
      let e := { e with sm := e.sm.stopTurboLimiterSfx }
      let e := { e with sm := e.sm.stopAllLightBlips }
      let e := { e with sm := e.sm.playLongSequence SKey.accelGears false now }
      { e with playedFullAccelSequenceRecently := true, timeAt100Throttle := 0 }
    else e
  else { e with timeAt100Throttle := 0 }

/-- The IDLING / PLAYFUL_REV branch of `EngineSimulation.update`
(lines 491-550); `LAUNCH_CONTROL_BRAKE_REQUIRED` is `False` in the
source, so its conjunct is identically true and omitted. -/
def idlingBranch (e : Engine) (dt now previousThrottleThisFrame : ℚ) : Engine :=
  let e :=
    if e.state = EState.IDLING then
      let e := { e with timeInIdle := e.timeInIdle + dt }
      let e :=
        if e.timeInIdle > FULL_ACCEL_RESET_IDLE_TIME then
          { e with playedFullAccelSequenceRecently := false }
        else e
      if ¬e.sm.anyPlayfulSfxActive ∧ ¬e.sm.isLaunchControlActive then
        { e with sm := e.sm.setIdleTargetVolume NORMAL_IDLE_VOLUME false }
      else e
    else
      let e := { e with sm := e.sm.setIdleTargetVolume LOW_IDLE_VOLUME_DURING_SFX false }
      if ¬e.sm.anyPlayfulSfxActive then
        let e := { e with state := EState.IDLING, timeInIdle := 0 }
        { e with sm := e.sm.setIdleTargetVolume NORMAL_IDLE_VOLUME false }
      else e
  let isInLcThrottleRange :=
    LAUNCH_CONTROL_THROTTLE_MIN < e.currentThrottle ∧
      e.currentThrottle < LAUNCH_CONTROL_THROTTLE_MAX
  if isInLcThrottleRange ∧ e.state ≠ EState.LAUNCH_HOLD then
    let e := { e with timeInLaunchControlRange := e.timeInLaunchControlRange + dt }
    if e.timeInLaunchControlRange ≥ LAUNCH_CONTROL_HOLD_DURATION ∧
        ¬e.sm.isLaunchControlActive then
      let e := { e with state := EState.LAUNCH_HOLD }
      let e := { e with sm := e.sm.stopAllLightBlips }
      let e := { e with sm := e.sm.stopTurboLimiterSfx }
      let p := e.sm.playLaunchControlSequence
      let e := { e with sm := p.1 }
      let e :=
        if p.2 then
          { e with sm := e.sm.setIdleTargetVolume VERY_LOW_IDLE_VOLUME_DURING_LAUNCH true }
        else { e with state := EState.IDLING }
      { e with timeInLaunchControlRange := 0, timeAt100Throttle := 0 }
    else idlingAfterLc e dt now previousThrottleThisFrame
  else
    let e :=
      if ¬isInLcThrottleRange ∧ e.state ≠ EState.LAUNCH_HOLD then
        { e with timeInLaunchControlRange := 0 }
      else e
    idlingAfterLc e dt now previousThrottleThisFrame

/-- The LAUNCH_HOLD branch of `EngineSimulation.update` (lines 553-572). -/
def launchHoldBranch (e : Engine) (now : ℚ) : Engine :=
  let e :=
    { e with sm := e.sm.setIdleTargetVolume VERY_LOW_IDLE_VOLUME_DURING_LAUNCH true }
  if e.currentThrottle ≥ 49/50 then
    let e := { e with state := EState.ACCELERATING }
    let e := { e with sm := e.sm.stopLaunchControlSequence 0 }
    let e := { e with sm := e.sm.setIdleTargetVolume 0 true }
    let e := { e with sm := e.sm.playLongSequence SKey.accelGears false now }
    { e with playedFullAccelSequenceRecently := true }
  else if ¬(LAUNCH_CONTROL_THROTTLE_MIN < e.currentThrottle ∧
            e.currentThrottle < LAUNCH_CONTROL_THROTTLE_MAX) ∨
          ¬e.sm.isLaunchControlActive then
    let e := { e with state := EState.IDLING }
    let e := { e with sm := e.sm.stopLaunchControlSequence (FADE_OUT_MS / 2) }
    let e := { e with sm := e.sm.setIdleTargetVolume NORMAL_IDLE_VOLUME false }
    let e := if e.sm.loaded SKey.idle then { e with sm := e.sm.playIdle } else e
    { e with timeInIdle := 0 }
  else e

/-- The ACCELERATING branch of `EngineSimulation.update` (lines 575-590). -/
def acceleratingBranch (e : Engine) (now : ℚ) : Engine :=
  let e := { e with sm := e.sm.setIdleTargetVolume 0 true }
  if e.currentThrottle < 9/10 then
    let e := { e with state := EState.DECELERATING }
    { e with sm := e.sm.playLongSequence SKey.decelDownshifts true now }
  else if ¬e.sm.isLongSequenceBusy ∧ ¬e.sm.transitioningLongSound then
    if e.currentThrottle ≥ 9/10 then
      let e := { e with state := EState.CRUISING }
      { e with sm := e.sm.playLongSequence SKey.cruising true now }
    else
      let e := { e with state := EState.DECELERATING }
      { e with sm := e.sm.playLongSequence SKey.decelDownshifts true now }
  else e

/-- The CRUISING branch of `EngineSimulation.update` (lines 592-597). -/
def cruisingBranch (e : Engine) (now : ℚ) : Engine :=
  let e := { e with sm := e.sm.setIdleTargetVolume 0 true }
  if e.currentThrottle < 9/10 then
    let e := { e with state := EState.DECELERATING }
    { e with sm := e.sm.playLongSequence SKey.decelDownshifts true now }
  else e

/-- The DECELERATING branch of `EngineSimulation.update` (lines 599-613). -/
def deceleratingBranch (e : Engine) (now : ℚ) : Engine :=
  let e := { e with sm := e.sm.setIdleTargetVolume 0 true }
  if e.currentThrottle ≥ 19/20 ∧ ¬e.sm.transitioningLongSound then
    let e := { e with state := EState.CRUISING }
    let e := { e with sm := e.sm.playLongSequence SKey.cruising true now }
    { e with playedFullAccelSequenceRecently := true }
  else if ¬e.sm.isLongSequenceBusy ∧ ¬e.sm.transitioningLongSound then
    let e := { e with state := EState.IDLING }
    let e := { e with sm := e.sm.setIdleTargetVolume NORMAL_IDLE_VOLUME false }
    let e := if e.sm.loaded SKey.idle then { e with sm := e.sm.playIdle } else e
    { e with timeInIdle := 0 }
  else e

/-- `EngineSimulation.update` (`now` is the tick's `time.time()`,
`newThrottleValue` the smoothed throttle). -/
def update (e : Engine) (dt newThrottleValue now : ℚ) : Engine :=
  let previousThrottleThisFrame := e.currentThrottle
  let e := { e with currentThrottle := newThrottleValue }
  let e :=
    { e with throttleHistory :=
        dequeAppend GESTURE_MAX_POINTS e.throttleHistory (now, newThrottleValue) }
  let e := { e with sm := e.sm.updateLongSequenceCrossfade now }
  let e := { e with sm := e.sm.updateIdleFade dt }
  let e := { e with sm := e.sm.update }
  match e.state with
  | EState.ENGINE_OFF =>
      if e.currentThrottle > THROTTLE_DEADZONE_LOW + 1/20 then
        let e := { e with state := EState.STARTING }
        let e := { e with sm := (e.sm.playStarterSfx).1 }
        let e := { e with currentThrottle := 0 }
        { e with throttleHistory :=
            dequeAppend GESTURE_MAX_POINTS e.throttleHistory (now, 0) }
      else e
  | EState.STARTING =>
      if ¬e.sm.isTurboLimiterSfxBusy ∧ ¬e.sm.isLaunchControlActive then
        let e := { e with state := EState.IDLING }
        let e := { e with sm := e.sm.setIdleTargetVolume NORMAL_IDLE_VOLUME false }
        let e := { e with sm := e.sm.playIdle }
        { e with timeInIdle := 0 }
      else e
  | EState.IDLING => idlingBranch e dt now previousThrottleThisFrame
  | EState.PLAYFUL_REV => idlingBranch e dt now previousThrottleThisFrame
  | EState.LAUNCH_HOLD => launchHoldBranch e now
  | EState.ACCELERATING => acceleratingBranch e now
  | EState.CRUISING => cruisingBranch e now
  | EState.DECELERATING => deceleratingBranch e now

/-- Feed one conditioned throttle sample straight to the gesture
detector, mirroring the two steps of `EngineSimulation.update` the
detector depends on: append to the throttle history (the previous
`current_throttle` becoming `old_throttle_value_for_frame`), then run
`_check_playful_gestures`. -/
def feedGesture (e : Engine) (t thr : ℚ) : Engine × Option ℚ :=
  let old := e.currentThrottle
  let e :=
    { e with currentThrottle := thr,
             throttleHistory := dequeAppend GESTURE_MAX_POINTS e.throttleHistory (t, thr) }
  checkPlayfulGestures e t old

/-- Run the gesture detector over a timed throttle pattern, collecting
each call's recognition result. -/
def gestureRun (e : Engine) : List (ℚ × ℚ) → Engine × List (Option ℚ)
  | [] => (e, [])
  | (t, thr) :: rest =>
      let s := feedGesture e t thr
      let r := gestureRun s.1 rest
      (r.1, s.2 :: r.2)

end Engine

/-! ## Main_REV3.py : constants -/

def SUPRA_CROSSFADE_DURATION_MS : ℚ := 800
def HELLCAT_NORMAL_IDLE_VOLUME : ℚ := 7/10
def HELLCAT_LOW_IDLE_VOLUME_DURING_SHIFT : ℚ := 3/10
def HELLCAT_THROTTLE_IDLE_THRESHOLD : ℚ := 1/20
def HELLCAT_RPM_ACCEL_BASE : ℚ := 1200
def HELLCAT_RPM_DECAY_COAST : ℚ := 2000
def HELLCAT_RPM_THROTTLE_LIFT_DECAY : ℚ := 3500
def HELLCAT_IDLE_RPM : ℚ := 750
def HELLCAT_REDLINE_RPM : ℚ := 6200
def HELLCAT_MIN_SHIFT_INTERVAL : ℚ := 5/2
def HELLCAT_EMA_ALPHA : ℚ := 1/5

/-- `HELLCAT_GEAR_ACCEL_MULTIPLIERS.get(gear, 1.0)`. -/
def hellcatGearAccelMultiplier (gear : ℤ) : ℚ :=
  if gear = 1 then 6/5 else if gear = 2 then 9/10 else if gear = 3 then 7/10
  else if gear = 4 then 1/2 else if gear = 5 then 2/5 else 1

/-- `HELLCAT_GEAR_ENGINE_BRAKING.get(gear, 500)`. -/
def hellcatGearEngineBraking (gear : ℤ) : ℚ :=
  if gear = 1 then 2000 else if gear = 2 then 1500 else if gear = 3 then 1200
  else if gear = 4 then 800 else if gear = 5 then 600 else 500

/-- `HELLCAT_GEAR_DOWNSHIFT_THRESHOLDS.get(gear, 1500)`. -/
def hellcatGearDownshiftThreshold (gear : ℤ) : ℚ :=
  if gear = 2 then 1400 else if gear = 3 then 1800 else if gear = 4 then 2200
  else if gear = 5 then 2800 else 1500

/-! ## Main_REV3.py : HellcatEngineSimulation -/

/-- The state strings used by the `Main_REV3.py` engine simulations. -/
inductive RState where
  | ENGINE_OFF | STARTING | IDLE | IDLING | PLAYFUL_REV | LAUNCH_HOLD
  | PRE_ACCEL | ACCELERATING | CRUISING | DECELERATING | DRIVING
  deriving DecidableEq, Repr

/-- `HellcatEngineSimulation` fields.  Sound-manager interactions that
feed back into these fields are limited to `is_startup_busy`, supplied
as an input each tick; all other `self.sm` calls mutate only the sound
manager and are omitted here. -/
structure HState where
  state : RState
  rawThrottle : ℚ
  smoothedThrottle : ℚ
  previousThrottle : ℚ
  simulatedRpm : ℚ
  simulatedGear : ℤ
  engineLoad : ℚ
  stateStartTime : ℚ
  lastShiftTime : ℚ
  inSimpleRevGesture : Bool
  revGestureStartTime : ℚ
  revPeakThrottle : ℚ
  revLockoutUntil : ℚ

namespace HState

/-- `HellcatEngineSimulation.__init__`. -/
def init : HState where
  state := RState.ENGINE_OFF
  rawThrottle := 0
  smoothedThrottle := 0
  previousThrottle := 0
  simulatedRpm := HELLCAT_IDLE_RPM
  simulatedGear := 1
  engineLoad := 0
  stateStartTime := 0
  lastShiftTime := 0
  inSimpleRevGesture := false
  revGestureStartTime := 0
  revPeakThrottle := 0
  revLockoutUntil := 0

/-- `HellcatEngineSimulation._check_simple_rev_gestures` (engine-state
effects only; `play_simple_rev` touches just the sound manager). -/
def checkSimpleRevGestures (st : HState) (currentTime : ℚ) : HState :=
  if st.state ≠ RState.IDLE then { st with inSimpleRevGesture := false }
  else
    let st :=
      if ¬st.inSimpleRevGesture ∧ currentTime ≥ st.revLockoutUntil then
        if st.rawThrottle > HELLCAT_THROTTLE_IDLE_THRESHOLD * 2 ∧
            st.previousThrottle ≤ HELLCAT_THROTTLE_IDLE_THRESHOLD * (3/2) then
          { st with inSimpleRevGesture := true, revGestureStartTime := currentTime,
                    revPeakThrottle := st.rawThrottle }
        else st
      else st
    if st.inSimpleRevGesture then
      let st := { st with revPeakThrottle := max st.revPeakThrottle st.rawThrottle }
      if currentTime - st.revGestureStartTime > 1 then
        { st with inSimpleRevGesture := false }
      else
        let isDroppingToIdle :=
          st.rawThrottle < st.revPeakThrottle * (1/2) ∧
          st.rawThrottle ≤ HELLCAT_THROTTLE_IDLE_THRESHOLD * 2
        if isDroppingToIdle ∧ st.revPeakThrottle > 2/25 then
          { st with inSimpleRevGesture := false, revLockoutUntil := currentTime + 1/2 }
        else if isDroppingToIdle then
          { st with inSimpleRevGesture := false }
        else st
    else st

/-- `HellcatEngineSimulation._handle_idle_state` (engine-state effects). -/
def handleIdleState (st : HState) (currentTime dt : ℚ) : HState :=
  let st := st.checkSimpleRevGestures currentTime
  let st :=
    if ¬st.inSimpleRevGesture ∧ st.smoothedThrottle > HELLCAT_THROTTLE_IDLE_THRESHOLD then
      if st.rawThrottle > HELLCAT_THROTTLE_IDLE_THRESHOLD then
        { st with state := RState.DRIVING, stateStartTime := currentTime }
      else st
    else st
  if st.simulatedRpm > HELLCAT_IDLE_RPM then
    { st with
      simulatedRpm :=
        max HELLCAT_IDLE_RPM (st.simulatedRpm - HELLCAT_RPM_DECAY_COAST * dt) }
  else st

/-- The virtual-RPM physics block of `_handle_driving_state` (lines
2242-2261): throttle-scaled acceleration (or gear-braked decay on lift)
followed by the redline clamp. -/
def drivingRpmPhysics (st : HState) (dt : ℚ) : HState :=
  let st : HState :=
    if st.smoothedThrottle > HELLCAT_THROTTLE_IDLE_THRESHOLD then
      let gearMultiplier := hellcatGearAccelMultiplier st.simulatedGear
      let rpmIncrease :=
        HELLCAT_RPM_ACCEL_BASE * st.smoothedThrottle * gearMultiplier * dt
      { st with simulatedRpm := st.simulatedRpm + rpmIncrease }
    else
      let gearBraking := hellcatGearEngineBraking st.simulatedGear
      let totalDecay :=
        if st.engineLoad < -(1/20) then HELLCAT_RPM_THROTTLE_LIFT_DECAY + gearBraking
        else HELLCAT_RPM_DECAY_COAST + gearBraking
      { st with
        simulatedRpm :=
          max HELLCAT_IDLE_RPM (st.simulatedRpm - totalDecay * dt) }
  { st with simulatedRpm := min st.simulatedRpm HELLCAT_REDLINE_RPM }

/-- The upshift block of `_handle_driving_state` (lines 2263-2281):
shift up at redline below 5th gear, at most once per shift interval;
RPM resets to `1800 + 100 * new_gear`. -/
def drivingUpshift (st : HState) (currentTime : ℚ) : HState :=
  let timeSinceLastShift := currentTime - st.lastShiftTime
  if st.simulatedRpm ≥ HELLCAT_REDLINE_RPM ∧ st.simulatedGear < 5 ∧
      timeSinceLastShift ≥ HELLCAT_MIN_SHIFT_INTERVAL then
    let st := { st with simulatedGear := st.simulatedGear + 1 }
    let newRpm : ℚ := 1800 + st.simulatedGear * 100
    { st with simulatedRpm := newRpm, lastShiftTime := currentTime }
  else st

/-- The downshift block of `_handle_driving_state` (lines 2283-2325):
four downshift scenarios, rev-matched RPM bump capped at 75% of
redline. -/
def drivingDownshift (st : HState) (currentTime : ℚ) : HState :=
  if st.simulatedGear > 1 ∧
      currentTime - st.lastShiftTime ≥ HELLCAT_MIN_SHIFT_INTERVAL then
    let downshiftThreshold := hellcatGearDownshiftThreshold st.simulatedGear
    let immediateThrottleRelease :=
      st.engineLoad < -(3/20) ∧ st.simulatedRpm < downshiftThreshold * (7/5)
    let naturalRpmDownshift :=
      st.simulatedRpm < downshiftThreshold ∧ st.smoothedThrottle < 2/5
    let stoppingDownshift :=
      st.simulatedRpm < 1400 ∧ st.smoothedThrottle < 3/20
    let sustainedLowThrottle :=
      st.smoothedThrottle < 1/10 ∧
      st.simulatedRpm < downshiftThreshold * (13/10) ∧
      currentTime - st.lastShiftTime ≥ HELLCAT_MIN_SHIFT_INTERVAL * (7/10)
    if immediateThrottleRelease ∨ naturalRpmDownshift ∨ stoppingDownshift ∨
        sustainedLowThrottle then
      let st := { st with simulatedGear := st.simulatedGear - 1 }
      let revMatchIncrease : ℚ := 400 + st.simulatedGear * 150
      { st with
        simulatedRpm :=
          min (HELLCAT_REDLINE_RPM * (3/4)) (st.simulatedRpm + revMatchIncrease),
        lastShiftTime := currentTime }
    else st
  else st

/-- `HellcatEngineSimulation._handle_driving_state` (engine-state
effects; `play_upshift_sound` / `play_downshift_sound` and the idle
volume calls touch only the sound manager). -/
def handleDrivingState (st : HState) (currentTime dt : ℚ) : HState :=
  if st.smoothedThrottle ≤ HELLCAT_THROTTLE_IDLE_THRESHOLD then
    { st with state := RState.IDLE }
  else
    ((st.drivingRpmPhysics dt).drivingUpshift currentTime).drivingDownshift
      currentTime

/-- `HellcatEngineSimulation.update` (engine-state effects;
`startupBusy` is the tick's `sm.is_startup_busy()` reading, the
foundation/character-layer calls touch only the sound manager). -/
def update (st : HState) (dt newRawThrottle currentTime : ℚ)
    (startupBusy : Bool) : HState :=
  let st := { st with previousThrottle := st.rawThrottle, rawThrottle := newRawThrottle }
  let st :=
    { st with smoothedThrottle :=
        HELLCAT_EMA_ALPHA * st.rawThrottle +
          (1 - HELLCAT_EMA_ALPHA) * st.smoothedThrottle }
  let st := { st with engineLoad := st.rawThrottle - st.previousThrottle }
  match st.state with
  | RState.ENGINE_OFF =>
      if st.rawThrottle > THROTTLE_DEADZONE_LOW + 1/20 then
        { st with state := RState.STARTING, stateStartTime := currentTime,
                  rawThrottle := 0, smoothedThrottle := 0,
                  simulatedRpm := HELLCAT_IDLE_RPM }
      else st
  | RState.STARTING =>
      if ¬startupBusy then
        { st with state := RState.IDLE, stateStartTime := currentTime }
      else st
  | RState.IDLE => st.handleIdleState currentTime dt
  | RState.DRIVING => st.handleDrivingState currentTime dt
  | _ => st

/-- One tick of input to the Hellcat engine: the frame time, the raw
throttle sample, the wall-clock reading and the startup-channel busy
flag. -/
structure HTick where
  dt : ℚ
  raw : ℚ
  now : ℚ
  startupBusy : Bool

/-- A tick is valid when the frame time is nonnegative and the raw
throttle sample is calibrated into [0,1]. -/
def HTick.valid (t : HTick) : Prop := 0 ≤ t.dt ∧ 0 ≤ t.raw ∧ t.raw ≤ 1

/-- Run the Hellcat engine over a sequence of ticks. -/
def run (st : HState) (ticks : List HTick) : HState :=
  ticks.foldl (fun s t => s.update t.dt t.raw t.now t.startupBusy) st

end HState

/-! ## Main_REV3.py : HellcatSoundManager one-shot rev queue -/

/-- The clips that can occupy the Hellcat shift/rev SFX channel. -/
inductive RKey where
  | rev1 | rev2 | rev3 | upshift | downshift1 | downshift2
  deriving DecidableEq, Repr

/-- The slice of `HellcatSoundManager` owning the one-shot rev queue:
the shift/rev SFX channel (clip currently playing, `none` when free)
and the pending queue. -/
structure RevSM where
  loaded : RKey → Bool
  channelShiftSfx : Option RKey
  revQueue : List RKey

def MAX_REV_QUEUE_SIZE : ℕ := 3

namespace RevSM

/-- `HellcatSoundManager._play_rev_now`. -/
def playRevNow (sm : RevSM) (soundKey : RKey) : RevSM × Bool :=
  if sm.loaded soundKey then
    ({ sm with channelShiftSfx := some soundKey }, true)
  else (sm, false)

/-- `HellcatSoundManager.play_simple_rev`; `choice` is the clip picked
by `random.choice(['rev_1','rev_2','rev_3'])`. -/
def playSimpleRev (sm : RevSM) (choice : RKey) : RevSM × Bool :=
  if sm.channelShiftSfx.isNone then sm.playRevNow choice
  else if sm.revQueue.length < MAX_REV_QUEUE_SIZE then
    ({ sm with revQueue := sm.revQueue ++ [choice] }, true)
  else (sm, false)

/-- `HellcatSoundManager._process_rev_queue` (called from
`HellcatSoundManager.update` every tick). -/
def processRevQueue (sm : RevSM) : RevSM :=
  if sm.channelShiftSfx.isNone then
    match sm.revQueue with
    | [] => sm
    | nextRev :: rest => (({ sm with revQueue := rest }).playRevNow nextRev).1
  else sm

/-- The events that can touch the rev channel and queue: a rev request,
a queue-processing tick, and the audio backend finishing the clip on
the channel. -/
inductive Ev where
  | request (choice : RKey)
  | processTick
  | clipEnds

def step (sm : RevSM) : Ev → RevSM
  | Ev.request choice => (sm.playSimpleRev choice).1
  | Ev.processTick => sm.processRevQueue
  | Ev.clipEnds => { sm with channelShiftSfx := none }

def runEvents (sm : RevSM) (evs : List Ev) : RevSM := evs.foldl step sm

end RevSM

/-! ## Main_REV3.py : TripleCarSystem -/

/-- A mixer channel as the switch coordinator sees it: whether a clip is
sounding and whether a `fadeout` is in progress. -/
structure CChan where
  busy : Bool
  fading : Bool
  deriving DecidableEq, Repr

/-- `fade_out_all_sounds(fade_ms)` of each sound manager: every busy
channel gets a `fadeout`. -/
def fadeOutAllSounds (voices : List CChan) : List CChan :=
  voices.map fun c => if c.busy then { c with fading := true } else c

/-- `stop_all_sounds()` of each sound manager: every channel is
hard-stopped. -/
def stopAllSounds (voices : List CChan) : List CChan :=
  voices.map fun _ => { busy := false, fading := false }

inductive Car where
  | M4 | Supra | Hellcat
  deriving DecidableEq, Repr

/-- `self.cars = ["M4", "Supra", "Hellcat"]`. -/
def carsList : List Car := [Car.M4, Car.Supra, Car.Hellcat]

/-- `self.cars[index]`. -/
def carAt (i : ℕ) : Car := carsList.getD i Car.Hellcat

/-- The M4 engine as the coordinator touches it (its `state` field; the
rest of `M4EngineSimulation` is opaque to `TripleCarSystem`). -/
structure M4EngineState where
  state : RState
  deriving DecidableEq, Repr

/-- The Supra engine as the coordinator touches it. -/
structure SupraEngineState where
  state : RState
  deriving DecidableEq, Repr

/-- `TripleCarSystem` state: the three engines, each car's mixer
channels, the rotation index, the active car, the switch bookkeeping and
the shared throttle-smoothing buffer. -/
structure TripleCar where
  m4Engine : M4EngineState
  supraEngine : SupraEngineState
  hellcatEngine : HState
  m4Voices : List CChan
  supraVoices : List CChan
  hellcatVoices : List CChan
  currentCarIndex : ℕ
  currentCar : Car
  switchingCars : Bool
  switchStartTime : ℚ
  throttleBuffer : List ℚ

/-- The per-car engine update functions `TripleCarSystem.update`
dispatches to (modelled as explicit parameters: `dt`, throttle, and the
resulting engine state). -/
structure EngineUpdates where
  updM4 : ℚ → ℚ → M4EngineState → M4EngineState
  updSupra : ℚ → ℚ → SupraEngineState → SupraEngineState
  updHellcat : ℚ → ℚ → HState → HState

namespace TripleCar

/-- `TripleCarSystem.switch_car` (`now` is `time.time()`). -/
def switchCar (s : TripleCar) (now : ℚ) : TripleCar :=
  if s.switchingCars then s
  else
    let s := { s with currentCarIndex := (s.currentCarIndex + 1) % carsList.length }
    let s := { s with switchingCars := true, switchStartTime := now }
    match s.currentCar with
    | Car.M4 => { s with m4Voices := fadeOutAllSounds s.m4Voices }
    | Car.Supra => { s with supraVoices := fadeOutAllSounds s.supraVoices }
    | Car.Hellcat => { s with hellcatVoices := fadeOutAllSounds s.hellcatVoices }

/-- The switch-completion block of `TripleCarSystem.update`: hard-stop
the outgoing car's voices, make the next car current, and reset its
engine state (state machine to ENGINE_OFF; for the Hellcat also RPM,
gear and shift timer). -/
def completeSwitch (s : TripleCar) : TripleCar :=
  let s :=
    match s.currentCar with
    | Car.M4 => { s with m4Voices := stopAllSounds s.m4Voices }
    | Car.Supra => { s with supraVoices := stopAllSounds s.supraVoices }
    | Car.Hellcat => { s with hellcatVoices := stopAllSounds s.hellcatVoices }
  let s := { s with currentCar := carAt s.currentCarIndex }
  let s :=
    match s.currentCar with
    | Car.M4 => { s with m4Engine := { s.m4Engine with state := RState.ENGINE_OFF } }
    | Car.Supra =>
        { s with supraEngine := { s.supraEngine with state := RState.ENGINE_OFF } }
    | Car.Hellcat =>
        { s with hellcatEngine :=
            { s.hellcatEngine with
              state := RState.ENGINE_OFF, simulatedRpm := HELLCAT_IDLE_RPM,
              simulatedGear := 1, lastShiftTime := 0 } }
  { s with switchingCars := false }

/-- Dispatch to the active car's engine update: the M4 receives the
smoothed throttle, the Supra and Hellcat the raw throttle. -/
def updateActiveEngine (u : EngineUpdates) (s : TripleCar)
    (dt smoothedThrottle rawThrottle : ℚ) : TripleCar :=
  match s.currentCar with
  | Car.M4 => { s with m4Engine := u.updM4 dt smoothedThrottle s.m4Engine }
  | Car.Supra => { s with supraEngine := u.updSupra dt rawThrottle s.supraEngine }
  | Car.Hellcat => { s with hellcatEngine := u.updHellcat dt rawThrottle s.hellcatEngine }

/-- `TripleCarSystem.update` (`now` is `time.time()`). -/
def update (u : EngineUpdates) (s : TripleCar) (dt rawThrottle now : ℚ) : TripleCar :=
  let s :=
    { s with throttleBuffer :=
        dequeAppend THROTTLE_SMOOTHING_WINDOW_SIZE s.throttleBuffer rawThrottle }
  let smoothedThrottle := s.throttleBuffer.sum / (s.throttleBuffer.length : ℚ)
  if s.switchingCars then
    if now - s.switchStartTime ≥ SUPRA_CROSSFADE_DURATION_MS / 1000 then
      updateActiveEngine u s.completeSwitch dt smoothedThrottle rawThrottle
    else s
  else updateActiveEngine u s dt smoothedThrottle rawThrottle

end TripleCar

/-! ## Claim C8 : idle-volume idempotence -/

/-- A non-instant `set_idle_target_volume` call whose (clamped) target is
within 0.01 of the current target is a complete no-op. -/
lemma setIdleTargetVolume_noop (sm : SM) (v : ℚ)
    (h : ¬|sm.idleTargetVolume - max 0 (min 1 v)| > 1/100) :
    sm.setIdleTargetVolume v false = sm := by
  simp only [SM.setIdleTargetVolume]
  rw [if_neg]
  rintro (hc | hc)
  · exact h hc
  · simp at hc

/-- The shape of a non-instant `set_idle_target_volume` call that does
retarget: it writes the clamped target and possibly raises the fading
flag, and touches nothing else. -/
lemma setIdleTargetVolume_shape (sm : SM) (v : ℚ)
    (h : |sm.idleTargetVolume - max 0 (min 1 v)| > 1/100) :
    sm.setIdleTargetVolume v false =
      (if |sm.idleCurrentVolume - max 0 (min 1 v)| > 1/100
       then { sm with idleTargetVolume := max 0 (min 1 v), idleIsFading := true }
       else { sm with idleTargetVolume := max 0 (min 1 v) }) := by
  simp only [SM.setIdleTargetVolume]
  rw [if_pos (Or.inl h), if_neg (by simp)]

/-- C8: calling `set_idle_target_volume(v)` (non-instant) a second time
immediately after a first call with the same `v` leaves the whole sound
manager — in particular the idle target volume, current volume and
fading flag — unchanged: no additional fade restart. -/
theorem set_idle_target_volume_idempotent (sm : SM) (v : ℚ) :
    (sm.setIdleTargetVolume v false).setIdleTargetVolume v false =
      sm.setIdleTargetVolume v false := by
  by_cases h1 : |sm.idleTargetVolume - max 0 (min 1 v)| > 1/100
  · rw [setIdleTargetVolume_shape sm v h1]
    split_ifs with h2
    · exact setIdleTargetVolume_noop _ v (by simp)
    · exact setIdleTargetVolume_noop _ v (by simp)
  · rw [setIdleTargetVolume_noop sm v h1, setIdleTargetVolume_noop sm v h1]

/-! ## Claim C9 : Hellcat one-shot rev queueing -/

/-- A rev sound manager slice with the rev channel busy and one queued
rev. -/
def revDemoBusy : RevSM :=
  { loaded := fun _ => true, channelShiftSfx := some RKey.upshift,
    revQueue := [RKey.rev1] }

/-- A rev sound manager slice with the rev channel busy and a full
queue. -/
def revDemoFull : RevSM :=
  { loaded := fun _ => true, channelShiftSfx := some RKey.upshift,
    revQueue := [RKey.rev1, RKey.rev2, RKey.rev3] }

/-- A rev sound manager slice with the rev channel free and two queued
revs. -/
def revDemoFree : RevSM :=
  { loaded := fun _ => true, channelShiftSfx := none,
    revQueue := [RKey.rev2, RKey.rev3] }

/-- C9: one-shot rev queueing.  (i) A rev requested while the voice is
busy is appended to the queue when it holds fewer than 3 entries;
(ii) with the queue at capacity the request is dropped outright;
(iii) when the voice frees up, queue processing pops the front entry and
plays it (FIFO); (iv) under any sequence of requests, processing ticks
and clip-end events, the queue length never exceeds 3. -/
theorem rev_queue_fifo_bounded :
    (∀ (sm : RevSM) (choice : RKey), sm.channelShiftSfx.isSome = true →
        sm.revQueue.length < MAX_REV_QUEUE_SIZE →
        (sm.playSimpleRev choice).1.revQueue = sm.revQueue ++ [choice] ∧
          (sm.playSimpleRev choice).2 = true) ∧
    (∀ (sm : RevSM) (choice : RKey), sm.channelShiftSfx.isSome = true →
        ¬sm.revQueue.length < MAX_REV_QUEUE_SIZE →
        (sm.playSimpleRev choice).1 = sm ∧ (sm.playSimpleRev choice).2 = false) ∧
    (∀ (sm : RevSM) (nextRev : RKey) (rest : List RKey),
        sm.channelShiftSfx = none → sm.revQueue = nextRev :: rest →
        sm.processRevQueue.revQueue = rest ∧
          (sm.loaded nextRev = true →
            sm.processRevQueue.channelShiftSfx = some nextRev)) ∧
    (∀ (sm : RevSM) (evs : List RevSM.Ev),
        sm.revQueue.length ≤ MAX_REV_QUEUE_SIZE →
        (sm.runEvents evs).revQueue.length ≤ MAX_REV_QUEUE_SIZE) := by
  have hstep : ∀ (sm : RevSM) (ev : RevSM.Ev),
      sm.revQueue.length ≤ MAX_REV_QUEUE_SIZE →
      (sm.step ev).revQueue.length ≤ MAX_REV_QUEUE_SIZE := by
    intro sm ev h
    cases ev with
    | request choice =>
        simp only [RevSM.step, RevSM.playSimpleRev, RevSM.playRevNow]
        split_ifs with h1 h2 h3 <;> (simp_all; try omega)
    | processTick =>
        simp only [RevSM.step, RevSM.processRevQueue]
        split_ifs with h1
        · cases hq : sm.revQueue with
          | nil => simp [hq]
          | cons k rest =>
              simp only [hq, RevSM.playRevNow]
              split_ifs <;> simp_all [List.length_cons] <;> omega
        · exact h
    | clipEnds => simpa using h
  refine ⟨?_, ?_, ?_, ?_⟩
  · intro sm choice hbusy hlen
    simp only [RevSM.playSimpleRev]
    rw [if_neg (by simp [Option.isNone_iff_eq_none]; intro hn; simp [hn] at hbusy),
      if_pos hlen]
    exact ⟨rfl, rfl⟩
  · intro sm choice hbusy hlen
    simp only [RevSM.playSimpleRev]
    rw [if_neg (by simp [Option.isNone_iff_eq_none]; intro hn; simp [hn] at hbusy),
      if_neg hlen]
    exact ⟨rfl, rfl⟩
  · intro sm nextRev rest hfree hq
    simp only [RevSM.processRevQueue, hfree, hq, Option.isNone_none, if_pos,
      RevSM.playRevNow]
    constructor
    · split_ifs <;> rfl
    · intro hl
      rw [if_pos hl]
  · intro sm evs
    induction evs generalizing sm with
    | nil => intro h; simpa [RevSM.runEvents] using h
    | cons ev rest ih =>
        intro h
        have := hstep sm ev h
        simpa [RevSM.runEvents, List.foldl_cons] using ih (sm.step ev) this

/-- C9 witness: concrete instances — a request with the channel busy and
a 1-entry queue appends; a request with a full queue is dropped; with
the channel free the head of the queue is popped and played; a short
event run from the busy demo state keeps the queue within 3. -/
theorem rev_queue_fifo_bounded_witness :
    ((revDemoBusy.playSimpleRev RKey.rev2).1.revQueue = [RKey.rev1, RKey.rev2] ∧
      (revDemoBusy.playSimpleRev RKey.rev2).2 = true) ∧
    ((revDemoFull.playSimpleRev RKey.rev1).1 = revDemoFull ∧
      (revDemoFull.playSimpleRev RKey.rev1).2 = false) ∧
    (revDemoFree.processRevQueue.revQueue = [RKey.rev3] ∧
      (revDemoFree.loaded RKey.rev2 = true →
        revDemoFree.processRevQueue.channelShiftSfx = some RKey.rev2)) ∧
    (revDemoBusy.runEvents
        [RevSM.Ev.request RKey.rev2, RevSM.Ev.request RKey.rev3,
         RevSM.Ev.request RKey.rev1, RevSM.Ev.clipEnds,
         RevSM.Ev.processTick]).revQueue.length ≤ MAX_REV_QUEUE_SIZE := by
  refine ⟨rev_queue_fifo_bounded.1 revDemoBusy RKey.rev2 (by decide) (by decide),
    rev_queue_fifo_bounded.2.1 revDemoFull RKey.rev1 (by decide) (by decide),
    rev_queue_fifo_bounded.2.2.1 revDemoFree RKey.rev2 [RKey.rev3] rfl rfl,
    rev_queue_fifo_bounded.2.2.2 revDemoBusy _ (by decide)⟩

/-! ## Claim C2 : gesture suppression -/

/-- The suppression condition at the head of
`_check_playful_gestures`: a long sequence is sounding (or a crossfade
between the long voices is in progress), the machine is holding launch,
or a launch-control sequence is active. -/
def GestureSuppressed (e : Engine) : Prop :=
  e.sm.isLongSequenceBusy ∨ e.state = EState.LAUNCH_HOLD ∨ e.sm.isLaunchControlActive

instance (e : Engine) : Decidable (GestureSuppressed e) := by
  unfold GestureSuppressed; infer_instance

/-- Under suppression the detector clears the potential-gesture flag and
does nothing else: no window, no recognition, no sound. -/
lemma checkPlayfulGestures_suppressed (e : Engine) (t old : ℚ)
    (h : GestureSuppressed e) :
    Engine.checkPlayfulGestures e t old = ({ e with inPotentialGesture := false }, none) := by
  simp only [GestureSuppressed] at h
  simp only [Engine.checkPlayfulGestures]
  rw [if_pos h]

/-- Feeding one sample to a suppressed detector only records the sample
and clears the potential-gesture flag. -/
lemma feedGesture_suppressed (e : Engine) (t thr : ℚ) (h : GestureSuppressed e) :
    Engine.feedGesture e t thr =
      ({ e with
          currentThrottle := thr,
          throttleHistory := dequeAppend GESTURE_MAX_POINTS e.throttleHistory (t, thr),
          inPotentialGesture := false }, none) := by
  simp only [Engine.feedGesture]
  exact checkPlayfulGestures_suppressed _ t e.currentThrottle h

/-- Suppressed multi-tick run: every recognition result is `none`, the
sound manager, lockout and state are untouched, and after any nonempty
pattern no window is open. -/
lemma gestureRun_suppressed (pattern : List (ℚ × ℚ)) :
    ∀ (e : Engine), GestureSuppressed e →
      (∀ r ∈ (Engine.gestureRun e pattern).2, r = none) ∧
      (Engine.gestureRun e pattern).1.sm = e.sm ∧
      (Engine.gestureRun e pattern).1.gestureLockoutUntilTime =
        e.gestureLockoutUntilTime ∧
      (Engine.gestureRun e pattern).1.state = e.state ∧
      (pattern ≠ [] → (Engine.gestureRun e pattern).1.inPotentialGesture = false) := by
  induction pattern with
  | nil =>
      intro e _
      refine ⟨by simp [Engine.gestureRun], rfl, rfl, rfl, by simp⟩
  | cons p rest ih =>
      intro e h
      obtain ⟨t, thr⟩ := p
      have hfeed := feedGesture_suppressed e t thr h
      have h2 : GestureSuppressed
          ({ e with
              currentThrottle := thr,
              throttleHistory := dequeAppend GESTURE_MAX_POINTS e.throttleHistory (t, thr),
              inPotentialGesture := false }) := h
      obtain ⟨hall, hsm, hlock, hstate, hflag⟩ := ih _ h2
      have hgr : Engine.gestureRun e ((t, thr) :: rest) =
          ((Engine.gestureRun
              { e with
                currentThrottle := thr,
                throttleHistory := dequeAppend GESTURE_MAX_POINTS e.throttleHistory (t, thr),
                inPotentialGesture := false } rest).1,
            none :: (Engine.gestureRun
              { e with
                currentThrottle := thr,
                throttleHistory := dequeAppend GESTURE_MAX_POINTS e.throttleHistory (t, thr),
                inPotentialGesture := false } rest).2) := by
        simp only [Engine.gestureRun, hfeed]
      rw [hgr]
      refine ⟨?_, hsm, hlock, hstate, ?_⟩
      · intro r hr
        simp only [List.mem_cons] at hr
        rcases hr with rfl | hr
        · rfl
        · exact hall r hr
      · intro _
        cases rest with
        | nil => exact rfl
        | cons q qs => exact hflag (by simp)

/-- C2: while a long-sequence voice reports busy or a launch-control
sequence is active (or the machine is in LAUNCH_HOLD), a single detector
call recognizes nothing, opens no window and clears any open
potential-gesture flag; and for every throttle pattern fed during such
an interval, the run recognizes no gesture, leaves the sound manager,
lockout and state untouched, and ends with no window open. -/
theorem gesture_suppression :
    (∀ (e : Engine) (t old : ℚ), GestureSuppressed e →
        Engine.checkPlayfulGestures e t old =
          ({ e with inPotentialGesture := false }, none)) ∧
    (∀ (e : Engine) (pattern : List (ℚ × ℚ)), GestureSuppressed e →
        (∀ r ∈ (Engine.gestureRun e pattern).2, r = none) ∧
        (Engine.gestureRun e pattern).1.sm = e.sm ∧
        (Engine.gestureRun e pattern).1.gestureLockoutUntilTime =
          e.gestureLockoutUntilTime ∧
        (pattern ≠ [] → (Engine.gestureRun e pattern).1.inPotentialGesture = false)) := by
  refine ⟨fun e t old h => checkPlayfulGestures_suppressed e t old h,
    fun e pattern h => ?_⟩
  obtain ⟨hall, hsm, hlock, _, hflag⟩ := gestureRun_suppressed pattern e h
  exact ⟨hall, hsm, hlock, hflag⟩

/-- An engine busy with a long sequence (crossfade in progress) and an
open potential gesture, used to witness suppression. -/
def suppressedDemoEngine : Engine :=
  { Engine.init (SM.init fun _ => true) with
      state := EState.IDLING,
      inPotentialGesture := true,
      sm := { SM.init (fun _ => true) with transitioningLongSound := true } }

/-- C2 witness: on the concrete busy engine, a single call and a
three-sample pattern recognize nothing and clear the window flag. -/
theorem gesture_suppression_witness :
    Engine.checkPlayfulGestures suppressedDemoEngine 1 0 =
      ({ suppressedDemoEngine with inPotentialGesture := false }, none) ∧
    (∀ r ∈ (Engine.gestureRun suppressedDemoEngine
        [(1, 1/2), (2, 9/10), (3, 0)]).2, r = none) ∧
    (Engine.gestureRun suppressedDemoEngine
        [(1, 1/2), (2, 9/10), (3, 0)]).1.inPotentialGesture = false := by
  have hs : GestureSuppressed suppressedDemoEngine := Or.inl (by decide)
  refine ⟨gesture_suppression.1 suppressedDemoEngine 1 0 hs, ?_, ?_⟩
  · exact (gesture_suppression.2 suppressedDemoEngine [(1, 1/2), (2, 9/10), (3, 0)] hs).1
  · exact (gesture_suppression.2 suppressedDemoEngine
      [(1, 1/2), (2, 9/10), (3, 0)] hs).2.2.2 (by simp)

/-! ## Claim C10 : gesture opening with a short history -/

/-- C10: with fewer than 2 samples in the throttle history, the
"previous sample at or below the deadzone" precondition is vacuously
satisfied: any sample above the deadzone opens a gesture window
(recording the start time and initial peak) provided no window is open,
the lockout has expired and no suppression applies; the freshly opened
window does not resolve on the same call. -/
theorem gesture_opens_on_short_history (e : Engine) (t old : ℚ)
    (hsup : ¬GestureSuppressed e)
    (hflag : e.inPotentialGesture = false)
    (hlock : t ≥ e.gestureLockoutUntilTime)
    (hhist : e.throttleHistory.length < 2)
    (hthr : e.currentThrottle > THROTTLE_DEADZONE_LOW) :
    (Engine.checkPlayfulGestures e t old).1.inPotentialGesture = true ∧
    (Engine.checkPlayfulGestures e t old).1.gestureStartTime = t ∧
    (Engine.checkPlayfulGestures e t old).1.peakThrottleInGesture = e.currentThrottle ∧
    (Engine.checkPlayfulGestures e t old).2 = none := by
  have hdz : (0 : ℚ) < e.currentThrottle := by
    have : (0 : ℚ) < THROTTLE_DEADZONE_LOW := by norm_num [THROTTLE_DEADZONE_LOW]
    linarith
  simp only [GestureSuppressed] at hsup
  simp only [Engine.checkPlayfulGestures]
  rw [if_neg hsup]
  have hopen : ¬e.inPotentialGesture = true ∧ t ≥ e.gestureLockoutUntilTime :=
    ⟨by simp [hflag], hlock⟩
  have hcond : e.currentThrottle > THROTTLE_DEADZONE_LOW ∧
      (e.throttleHistory.length < 2 ∨
        ((e.throttleHistory.reverse.get? 1).map Prod.snd).getD 1 ≤ THROTTLE_DEADZONE_LOW) :=
    ⟨hthr, Or.inl hhist⟩
  rw [if_pos hopen, if_pos hcond]
  rw [if_pos rfl]
  simp only [Engine.gestureResolve]
  rw [if_neg (by norm_num [GESTURE_WINDOW_TIME])]
  rw [if_neg ?_]
  · exact ⟨rfl, rfl, max_self _, rfl⟩
  · rintro ⟨⟨hfall, -, -⟩, -⟩
    simp only [max_self] at hfall
    nlinarith

/-- A freshly started engine (empty throttle history) one tick after its
first above-deadzone sample, ready for the short-history edge case. -/
def shortHistDemoEngine : Engine :=
  { Engine.init (SM.init fun _ => true) with
      state := EState.IDLING, currentThrottle := 3/10 }

/-- C10 witness: on the first tick after start, with an empty history
and throttle 0.3, a gesture window opens. -/
theorem gesture_opens_on_short_history_witness :
    (Engine.checkPlayfulGestures shortHistDemoEngine 5 0).1.inPotentialGesture = true ∧
    (Engine.checkPlayfulGestures shortHistDemoEngine 5 0).1.gestureStartTime = 5 ∧
    (Engine.checkPlayfulGestures shortHistDemoEngine 5 0).1.peakThrottleInGesture = 3/10 ∧
    (Engine.checkPlayfulGestures shortHistDemoEngine 5 0).2 = none := by
  have h := gesture_opens_on_short_history shortHistDemoEngine 5 0 (by decide) rfl
    (by norm_num [shortHistDemoEngine, Engine.init])
    (by norm_num [shortHistDemoEngine, Engine.init])
    (by norm_num [shortHistDemoEngine, THROTTLE_DEADZONE_LOW])
  exact ⟨h.1, h.2.1, h.2.2.1, h.2.2.2⟩

/-! ## Claim C6 : throttle conditioning bounds (corrected) -/

lemma get_throttle_percentage_unit (raw : ℚ) :
    0 ≤ get_throttle_percentage_from_adc raw ∧ get_throttle_percentage_from_adc raw ≤ 1 := by
  rw [get_throttle_percentage_from_adc,
    if_neg (by norm_num [MIN_ADC_VALUE, MAX_ADC_VALUE])]
  constructor
  · apply div_nonneg
    · rw [sub_nonneg]
      exact le_max_left _ _
    · norm_num [MIN_ADC_VALUE, MAX_ADC_VALUE]
  · rw [div_le_one (by norm_num [MIN_ADC_VALUE, MAX_ADC_VALUE])]
    have h1 : min raw MAX_ADC_VALUE ≤ MAX_ADC_VALUE := min_le_right _ _
    have h2 : MIN_ADC_VALUE ≤ MAX_ADC_VALUE := by norm_num [MIN_ADC_VALUE, MAX_ADC_VALUE]
    have h3 := max_le h2 h1
    linarith

lemma conditionStep_length (buf : List ℚ) (x : ℚ)
    (h : buf.length = THROTTLE_SMOOTHING_WINDOW_SIZE) :
    (conditionStep buf x).length = THROTTLE_SMOOTHING_WINDOW_SIZE := by
  simp only [conditionStep, dequeAppend, THROTTLE_SMOOTHING_WINDOW_SIZE] at *
  rw [if_neg (by omega)]
  simp [h]

lemma conditionStep_mem (buf : List ℚ) (x y : ℚ) (hy : y ∈ conditionStep buf x) :
    y ∈ buf ∨ y = get_throttle_percentage_from_adc x := by
  simp only [conditionStep, dequeAppend] at hy
  split_ifs at hy <;> simp only [List.mem_append, List.mem_singleton] at hy
  · exact hy
  · rcases hy with hy | hy
    · exact Or.inl (List.mem_of_mem_drop hy)
    · exact Or.inr hy

lemma bufferAfter_length (raws : List ℚ) :
    (bufferAfter raws).length = THROTTLE_SMOOTHING_WINDOW_SIZE := by
  have : ∀ (l : List ℚ) (buf : List ℚ), buf.length = THROTTLE_SMOOTHING_WINDOW_SIZE →
      (l.foldl conditionStep buf).length = THROTTLE_SMOOTHING_WINDOW_SIZE := by
    intro l
    induction l with
    | nil => intro buf h; simpa using h
    | cons r rest ih =>
        intro buf h
        simpa [List.foldl_cons] using ih _ (conditionStep_length buf r h)
  exact this raws initialThrottleBuffer (by simp [initialThrottleBuffer])

lemma bufferAfter_mem_unit (raws : List ℚ) :
    ∀ x ∈ bufferAfter raws, 0 ≤ x ∧ x ≤ 1 := by
  have : ∀ (l : List ℚ) (buf : List ℚ), (∀ x ∈ buf, 0 ≤ x ∧ x ≤ 1) →
      ∀ x ∈ l.foldl conditionStep buf, 0 ≤ x ∧ x ≤ 1 := by
    intro l
    induction l with
    | nil => intro buf h; simpa using h
    | cons r rest ih =>
        intro buf h
        refine ih _ ?_
        intro x hx
        rcases conditionStep_mem buf r x hx with hx | rfl
        · exact h x hx
        · exact get_throttle_percentage_unit r
  intro x hx
  refine this raws initialThrottleBuffer ?_ x hx
  intro y hy
  simp only [initialThrottleBuffer, List.mem_replicate] at hy
  simp [hy.2]

lemma bufferMean_bounds (l : List ℚ) (lo hi : ℚ) (hne : l.length ≠ 0)
    (h : ∀ x ∈ l, lo ≤ x ∧ x ≤ hi) :
    lo ≤ bufferMean l ∧ bufferMean l ≤ hi := by
  have hlen : (0 : ℚ) < l.length := by positivity
  have hsumle : l.sum ≤ l.length • hi :=
    List.sum_le_card_nsmul l hi fun x hx => (h x hx).2
  have hsumge : l.length • lo ≤ l.sum :=
    List.card_nsmul_le_sum l lo fun x hx => (h x hx).1
  rw [nsmul_eq_mul] at hsumle hsumge
  constructor
  · rw [bufferMean, le_div_iff hlen]
    linarith
  · rw [bufferMean, div_le_iff hlen]
    linarith

/-- C6 counterexample: after feeding the single raw ADC sample 65535
(which conditions to 1.0), the raw history's minimum conditioned value
is 1, yet the smoothed throttle is 1/5 — the smoothed value lies outside
`[min(raw history), max(raw history)]`, because the smoothing buffer is
pre-filled with zeros. -/
theorem smoothed_below_min_of_raw_history :
    get_throttle_percentage_from_adc 65535 = 1 ∧
    smoothedAfter [65535] = 1/5 ∧
    ¬(1 ≤ smoothedAfter [65535]) := by
  refine ⟨by norm_num [get_throttle_percentage_from_adc, MIN_ADC_VALUE, MAX_ADC_VALUE], ?_, ?_⟩ <;>
    norm_num [smoothedAfter, bufferAfter, bufferMean, initialThrottleBuffer,
      THROTTLE_SMOOTHING_WINDOW_SIZE, conditionStep, dequeAppend,
      get_throttle_percentage_from_adc, MIN_ADC_VALUE, MAX_ADC_VALUE, List.replicate]

/-- C6 (amended): every raw ADC sample conditions into [0,1]; the
smoothed throttle — the mean of the W=5-slot smoothing buffer, which is
pre-filled with zeros — always lies in [0,1], and lies within any bounds
enclosing the buffer's contents (in particular within
[min(buffer), max(buffer)]; this coincides with the bounds of the last
W raw samples only once W samples have been fed).  The conditioner has
no error conditions: it is a total function. -/
theorem throttle_conditioning_bounds :
    (∀ raw : ℚ, 0 ≤ get_throttle_percentage_from_adc raw ∧
        get_throttle_percentage_from_adc raw ≤ 1) ∧
    (∀ raws : List ℚ, 0 ≤ smoothedAfter raws ∧ smoothedAfter raws ≤ 1) ∧
    (∀ (raws : List ℚ) (lo hi : ℚ),
        (∀ x ∈ bufferAfter raws, lo ≤ x ∧ x ≤ hi) →
        lo ≤ smoothedAfter raws ∧ smoothedAfter raws ≤ hi) := by
  have hb : ∀ raws : List ℚ, (bufferAfter raws).length ≠ 0 := by
    intro raws
    rw [bufferAfter_length raws]
    simp [THROTTLE_SMOOTHING_WINDOW_SIZE]
  refine ⟨get_throttle_percentage_unit, ?_, ?_⟩
  · intro raws
    exact bufferMean_bounds _ 0 1 (hb raws) (bufferAfter_mem_unit raws)
  · intro raws lo hi h
    exact bufferMean_bounds _ lo hi (hb raws) h

/-- C6 witness: feeding raw samples conditioning to (1, 1): the mean of
the buffer [0,0,0,1,1] is 2/5, inside [0,1] and inside the buffer's own
bounds. -/
theorem throttle_conditioning_bounds_witness :
    (0 ≤ get_throttle_percentage_from_adc 65535 ∧
      get_throttle_percentage_from_adc 65535 ≤ 1) ∧
    (0 ≤ smoothedAfter [65535, 65535] ∧ smoothedAfter [65535, 65535] ≤ 1) ∧
    (0 ≤ smoothedAfter [65535, 65535] ∧ smoothedAfter [65535, 65535] ≤ 1) := by
  refine ⟨throttle_conditioning_bounds.1 65535,
    throttle_conditioning_bounds.2.1 [65535, 65535],
    throttle_conditioning_bounds.2.2 [65535, 65535] 0 1 ?_⟩
  exact bufferAfter_mem_unit [65535, 65535]

/-! ## Claim C7 : two-voice crossfade handoff (corrected) -/

lemma setActiveLongChannel_activeLongChannel (sm : SM) (c : Chan) :
    (sm.setActiveLongChannel c).activeLongChannel = c := by
  cases hA : sm.activeLongIsA <;>
    simp [SM.setActiveLongChannel, SM.activeLongChannel, hA]

lemma setActiveLongChannel_frame (sm : SM) (c : Chan) :
    (sm.setActiveLongChannel c).transitioningLongSound = sm.transitioningLongSound ∧
    (sm.setActiveLongChannel c).transitionStartTime = sm.transitionStartTime ∧
    (sm.setActiveLongChannel c).activeLongIsA = sm.activeLongIsA := by
  cases hA : sm.activeLongIsA <;> simp [SM.setActiveLongChannel, hA]

lemma activeLongChannel_transPatch (sm : SM) :
    (SM.activeLongChannel { sm with transitioningLongSound := false }) =
      sm.activeLongChannel := by
  cases hA : sm.activeLongIsA <;> simp [SM.activeLongChannel, hA]

/-- A sound manager with the long pair's channel A (the active voice)
playing a clip, about to crossfade. -/
def crossfadeDemoSM : SM :=
  { SM.init (fun _ => true) with
      channelLongA :=
        { playing := some SKey.accelGears, volume := MASTER_ENGINE_VOL, fading := false } }

/-- C7 counterexample: starting a long-sequence clip with transition
swaps the active-voice role at 0% progress, not at 100%: immediately
after `play_long_sequence(..., transition_from_other=True)` (elapsed
time 0, transition still alive) the fading-in voice (channel B, playing
the new clip at volume 0) is already the pair's active voice. -/
theorem crossfade_swap_at_start :
    crossfadeDemoSM.activeLongIsA = true ∧
    (crossfadeDemoSM.playLongSequence SKey.cruising true 10).transitioningLongSound = true ∧
    (crossfadeDemoSM.playLongSequence SKey.cruising true 10).transitionStartTime = 10 ∧
    (crossfadeDemoSM.playLongSequence SKey.cruising true 10).activeLongIsA = false ∧
    (crossfadeDemoSM.playLongSequence SKey.cruising true 10).activeLongChannel.playing =
      some SKey.cruising ∧
    (crossfadeDemoSM.playLongSequence SKey.cruising true 10).activeLongChannel.volume = 0 := by
  refine ⟨rfl, ?_, ?_, ?_, ?_, ?_⟩ <;>
    simp [crossfadeDemoSM, SM.playLongSequence, SM.init, SM.setActiveLongChannel,
      SM.setOtherLongChannel, SM.activeLongChannel, SM.otherLongChannel,
      Chan.play, Chan.setVolume, Chan.fadeout]

/-- C7 (amended): starting a new long-sequence clip with transition
fades out the currently active voice over the fixed crossfade duration
while the other voice starts the new clip at volume 0, and the roles
swap immediately (the fading-in voice becomes the active voice at the
moment the transition starts, not at 100% progress); on each update the
fading-in (now active) voice's volume is elapsed progress times the
master volume, and the transition is destroyed — the flag cleared and
the voice set to full volume — exactly when elapsed time ≥ duration. -/
theorem crossfade_handoff :
    (∀ (sm : SM) (k : SKey) (now : ℚ), sm.loaded k = true →
        (sm.playLongSequence k true now).activeLongIsA = !sm.activeLongIsA ∧
        (sm.playLongSequence k true now).otherLongChannel =
          sm.activeLongChannel.fadeout ∧
        (sm.playLongSequence k true now).activeLongChannel =
          (sm.otherLongChannel.setVolume 0).play k ∧
        (sm.playLongSequence k true now).transitioningLongSound = true ∧
        (sm.playLongSequence k true now).transitionStartTime = now) ∧
    (∀ (sm : SM) (t : ℚ), sm.transitioningLongSound = true →
        sm.activeLongChannel.getBusy = true →
        (sm.updateLongSequenceCrossfade t).activeLongChannel.volume =
          min 1 ((t - sm.transitionStartTime) * 1000 / CROSSFADE_DURATION_MS) *
            MASTER_ENGINE_VOL ∧
        ((sm.updateLongSequenceCrossfade t).transitioningLongSound = false ↔
          (t - sm.transitionStartTime) * 1000 ≥ CROSSFADE_DURATION_MS)) := by
  constructor
  · intro sm k now hk
    cases hA : sm.activeLongIsA <;>
      simp [SM.playLongSequence, hk, hA, SM.setActiveLongChannel,
        SM.setOtherLongChannel, SM.activeLongChannel, SM.otherLongChannel]
  · intro sm t htr hbusy
    have hdur : (0 : ℚ) < CROSSFADE_DURATION_MS := by norm_num [CROSSFADE_DURATION_MS]
    simp only [SM.updateLongSequenceCrossfade]
    rw [if_pos htr, if_pos hbusy]
    have hact := setActiveLongChannel_activeLongChannel sm
      (sm.activeLongChannel.setVolume
        (min 1 ((t - sm.transitionStartTime) * 1000 / CROSSFADE_DURATION_MS) *
          MASTER_ENGINE_VOL))
    have htrfield := setActiveLongChannel_frame sm
      (sm.activeLongChannel.setVolume
        (min 1 ((t - sm.transitionStartTime) * 1000 / CROSSFADE_DURATION_MS) *
          MASTER_ENGINE_VOL))
    by_cases hp : min 1 ((t - sm.transitionStartTime) * 1000 / CROSSFADE_DURATION_MS) ≥ 1
    · have hge : (t - sm.transitionStartTime) * 1000 ≥ CROSSFADE_DURATION_MS := by
        by_contra hcon
        push_neg at hcon
        have hlt1 : (t - sm.transitionStartTime) * 1000 / CROSSFADE_DURATION_MS < 1 := by
          rw [div_lt_one hdur]
          linarith
        have := min_le_right 1 ((t - sm.transitionStartTime) * 1000 / CROSSFADE_DURATION_MS)
        linarith
      have hmin : min 1 ((t - sm.transitionStartTime) * 1000 / CROSSFADE_DURATION_MS) = 1 := by
        have := min_le_left 1 ((t - sm.transitionStartTime) * 1000 / CROSSFADE_DURATION_MS)
        linarith
      rw [if_pos hp]
      have hbusy2 : (SM.activeLongChannel
          { sm.setActiveLongChannel
              (sm.activeLongChannel.setVolume
                (min 1 ((t - sm.transitionStartTime) * 1000 / CROSSFADE_DURATION_MS) *
                  MASTER_ENGINE_VOL)) with
            transitioningLongSound := false }).getBusy = true := by
        rw [activeLongChannel_transPatch, hact]
        exact hbusy
      rw [if_pos hbusy2]
      constructor
      · rw [setActiveLongChannel_activeLongChannel]
        simp [Chan.setVolume, hmin]
      · rw [(setActiveLongChannel_frame _ _).1]
        simp [hge]
    · have hlt : (t - sm.transitionStartTime) * 1000 < CROSSFADE_DURATION_MS := by
        by_contra hcon
        push_neg at hcon
        have : (1 : ℚ) ≤ (t - sm.transitionStartTime) * 1000 / CROSSFADE_DURATION_MS := by
          rw [le_div_iff hdur]
          linarith
        exact hp (le_min le_rfl this)
      rw [if_neg hp]
      refine ⟨?_, ?_⟩
      · rw [hact]
        simp [Chan.setVolume]
      · rw [htrfield.1, htr]
        simp only [Bool.true_eq_false, false_iff]
        intro hcon
        linarith

/-- The demo sound manager right after starting a crossfade to the
cruising clip at time 10. -/
def crossfadeDemoAfterPlay : SM := crossfadeDemoSM.playLongSequence SKey.cruising true 10

/-- C7 witness: the crossfade handoff evaluated on the demo sound
manager — at transition start, and on an update 250 ms in (progress
1/2, transition still alive). -/
theorem crossfade_handoff_witness :
    ((crossfadeDemoSM.playLongSequence SKey.cruising true 10).activeLongIsA =
        !crossfadeDemoSM.activeLongIsA ∧
      (crossfadeDemoSM.playLongSequence SKey.cruising true 10).otherLongChannel =
        crossfadeDemoSM.activeLongChannel.fadeout ∧
      (crossfadeDemoSM.playLongSequence SKey.cruising true 10).activeLongChannel =
        (crossfadeDemoSM.otherLongChannel.setVolume 0).play SKey.cruising ∧
      (crossfadeDemoSM.playLongSequence SKey.cruising true 10).transitioningLongSound = true ∧
      (crossfadeDemoSM.playLongSequence SKey.cruising true 10).transitionStartTime = 10) ∧
    ((crossfadeDemoAfterPlay.updateLongSequenceCrossfade (41/4)).activeLongChannel.volume =
        min 1 ((41/4 - crossfadeDemoAfterPlay.transitionStartTime) * 1000 /
          CROSSFADE_DURATION_MS) * MASTER_ENGINE_VOL ∧
      ((crossfadeDemoAfterPlay.updateLongSequenceCrossfade (41/4)).transitioningLongSound =
          false ↔
        (41/4 - crossfadeDemoAfterPlay.transitionStartTime) * 1000 ≥
          CROSSFADE_DURATION_MS)) := by
  have h1 := crossfade_handoff.1 crossfadeDemoSM SKey.cruising 10 rfl
  refine ⟨h1, crossfade_handoff.2 crossfadeDemoAfterPlay (41/4) h1.2.2.2.1 ?_⟩
  have := h1.2.2.1
  show (crossfadeDemoSM.playLongSequence SKey.cruising true 10).activeLongChannel.getBusy = true
  rw [this]
  rfl

/-! ## Claim C4 : launch transition -/

lemma setOtherLongChannel_otherLongChannel (sm : SM) (c : Chan) :
    (sm.setOtherLongChannel c).otherLongChannel = c := by
  cases hA : sm.activeLongIsA <;>
    simp [SM.setOtherLongChannel, SM.otherLongChannel, hA]

lemma setOtherLongChannel_activeLongChannel (sm : SM) (c : Chan) :
    (sm.setOtherLongChannel c).activeLongChannel = sm.activeLongChannel := by
  cases hA : sm.activeLongIsA <;>
    simp [SM.setOtherLongChannel, SM.activeLongChannel, hA]

lemma setActiveLongChannel_otherLongChannel (sm : SM) (c : Chan) :
    (sm.setActiveLongChannel c).otherLongChannel = sm.otherLongChannel := by
  cases hA : sm.activeLongIsA <;>
    simp [SM.setActiveLongChannel, SM.otherLongChannel, hA]

/-- `update_long_sequence_crossfade` only touches the long channels,
their volumes and the transition flag. -/
lemma updateLongSequenceCrossfade_frame (sm : SM) (now : ℚ) :
    (sm.updateLongSequenceCrossfade now).channelSfx = sm.channelSfx ∧
    (sm.updateLongSequenceCrossfade now).waitingForLaunchHoldLoop =
      sm.waitingForLaunchHoldLoop ∧
    (sm.updateLongSequenceCrossfade now).launchControlSoundsActive =
      sm.launchControlSoundsActive ∧
    (sm.updateLongSequenceCrossfade now).loaded = sm.loaded ∧
    (sm.updateLongSequenceCrossfade now).idleTargetVolume = sm.idleTargetVolume := by
  simp only [SM.updateLongSequenceCrossfade, SM.setActiveLongChannel]
  split_ifs <;> simp_all

/-- `update_idle_fade` only touches the idle envelope and idle channel. -/
lemma updateIdleFade_frame (sm : SM) (dt : ℚ) :
    (sm.updateIdleFade dt).channelSfx = sm.channelSfx ∧
    (sm.updateIdleFade dt).waitingForLaunchHoldLoop = sm.waitingForLaunchHoldLoop ∧
    (sm.updateIdleFade dt).launchControlSoundsActive = sm.launchControlSoundsActive ∧
    (sm.updateIdleFade dt).loaded = sm.loaded ∧
    (sm.updateIdleFade dt).channelLongA = sm.channelLongA ∧
    (sm.updateIdleFade dt).channelLongB = sm.channelLongB ∧
    (sm.updateIdleFade dt).activeLongIsA = sm.activeLongIsA ∧
    (sm.updateIdleFade dt).transitioningLongSound = sm.transitioningLongSound := by
  simp only [SM.updateIdleFade]
  split_ifs <;> simp_all

/-- `SoundManager.update` only touches the SFX channel and the two
launch-control flags. -/
lemma smUpdate_frame (sm : SM) :
    (sm.update).channelLongA = sm.channelLongA ∧
    (sm.update).channelLongB = sm.channelLongB ∧
    (sm.update).activeLongIsA = sm.activeLongIsA ∧
    (sm.update).transitioningLongSound = sm.transitioningLongSound ∧
    (sm.update).loaded = sm.loaded ∧
    (sm.update).channelIdle = sm.channelIdle := by
  simp only [SM.update, Chan.play, Chan.setVolume]
  split_ifs <;> simp_all

/-- After `SoundManager.update` the SFX channel either still carries
the clip it had or has been switched to the launch-control hold loop. -/
lemma smUpdate_sfx_cases (sm : SM) :
    (sm.update).channelSfx.playing = sm.channelSfx.playing ∨
    (sm.update).channelSfx.playing = some SKey.lcHoldLoop := by
  simp only [SM.update, Chan.play, Chan.setVolume]
  split_ifs <;> simp

/-- `set_idle_target_volume` only touches the idle envelope and idle
channel. -/
lemma setIdleTargetVolume_frame (sm : SM) (v : ℚ) (inst : Bool) :
    (sm.setIdleTargetVolume v inst).channelSfx = sm.channelSfx ∧
    (sm.setIdleTargetVolume v inst).waitingForLaunchHoldLoop =
      sm.waitingForLaunchHoldLoop ∧
    (sm.setIdleTargetVolume v inst).launchControlSoundsActive =
      sm.launchControlSoundsActive ∧
    (sm.setIdleTargetVolume v inst).loaded = sm.loaded ∧
    (sm.setIdleTargetVolume v inst).channelLongA = sm.channelLongA ∧
    (sm.setIdleTargetVolume v inst).channelLongB = sm.channelLongB ∧
    (sm.setIdleTargetVolume v inst).activeLongIsA = sm.activeLongIsA ∧
    (sm.setIdleTargetVolume v inst).transitioningLongSound =
      sm.transitioningLongSound := by
  simp only [SM.setIdleTargetVolume, Chan.setVolume]
  split_ifs <;> simp_all

/-- `stop_launch_control_sequence` clears both launch-control flags and
touches nothing but the SFX channel. -/
lemma stopLaunchControlSequence_frame (sm : SM) (f : ℚ) :
    (sm.stopLaunchControlSequence f).waitingForLaunchHoldLoop = false ∧
    (sm.stopLaunchControlSequence f).launchControlSoundsActive = false ∧
    (sm.stopLaunchControlSequence f).loaded = sm.loaded ∧
    (sm.stopLaunchControlSequence f).channelLongA = sm.channelLongA ∧
    (sm.stopLaunchControlSequence f).channelLongB = sm.channelLongB ∧
    (sm.stopLaunchControlSequence f).activeLongIsA = sm.activeLongIsA ∧
    (sm.stopLaunchControlSequence f).transitioningLongSound =
      sm.transitioningLongSound := by
  simp only [SM.stopLaunchControlSequence, Chan.fadeout, Chan.stop]
  split_ifs <;> simp_all

/-- With zero fade, `stop_launch_control_sequence` hard-stops the SFX
channel when it carries a launch-control clip and leaves it alone
otherwise. -/
lemma stopLaunchControlSequence_zero_sfx (sm : SM) :
    ((sm.channelSfx.playing = some SKey.lcEngage ∨
        sm.channelSfx.playing = some SKey.lcHoldLoop) →
      (sm.stopLaunchControlSequence 0).channelSfx.playing = none ∧
      (sm.stopLaunchControlSequence 0).channelSfx.fading = false) ∧
    (¬(sm.channelSfx.playing = some SKey.lcEngage ∨
        sm.channelSfx.playing = some SKey.lcHoldLoop) →
      (sm.stopLaunchControlSequence 0).channelSfx = sm.channelSfx) := by
  constructor
  · intro h
    have hbusy : sm.channelSfx.getBusy = true := by
      rcases h with h | h <;> simp [Chan.getBusy, h]
    simp only [SM.stopLaunchControlSequence]
    rw [if_pos ⟨hbusy, h⟩, if_neg (by norm_num)]
    exact ⟨rfl, rfl⟩
  · intro h
    simp only [SM.stopLaunchControlSequence]
    rw [if_neg (fun hc => h hc.2)]

/-- `play_long_sequence` without transition: the inactive long voice is
hard-stopped and the clip starts immediately at full (master) volume on
the active voice; no crossfade is created. -/
lemma playLongSequence_noTransition (sm : SM) (k : SKey) (now : ℚ)
    (hload : sm.loaded k = true) :
    (sm.playLongSequence k false now).activeLongChannel =
      (sm.activeLongChannel.setVolume MASTER_ENGINE_VOL).play k ∧
    (sm.playLongSequence k false now).otherLongChannel = sm.otherLongChannel.stop ∧
    (sm.playLongSequence k false now).transitioningLongSound = false ∧
    (sm.playLongSequence k false now).channelSfx = sm.channelSfx ∧
    (sm.playLongSequence k false now).waitingForLaunchHoldLoop =
      sm.waitingForLaunchHoldLoop ∧
    (sm.playLongSequence k false now).launchControlSoundsActive =
      sm.launchControlSoundsActive := by
  cases hA : sm.activeLongIsA <;>
    simp [SM.playLongSequence, hload, hA, SM.setActiveLongChannel,
      SM.setOtherLongChannel, SM.activeLongChannel, SM.otherLongChannel]

/-- In LAUNCH_HOLD with conditioned throttle ≥ 0.98, one `update` tick
reduces to: the three sound-manager maintenance calls, the instant idle
duck, a zero-fade launch-control stop, an instant idle cut, and an
immediate (no-transition) start of the full-acceleration sequence. -/
lemma update_launchHold_shape (e : Engine) (dt thr now : ℚ)
    (hstate : e.state = EState.LAUNCH_HOLD) (hthr : thr ≥ 49/50) :
    (e.update dt thr now).state = EState.ACCELERATING ∧
    (e.update dt thr now).playedFullAccelSequenceRecently = true ∧
    (e.update dt thr now).sm =
      (((((((e.sm.updateLongSequenceCrossfade now).updateIdleFade dt).update
          ).setIdleTargetVolume VERY_LOW_IDLE_VOLUME_DURING_LAUNCH true
          ).stopLaunchControlSequence 0).setIdleTargetVolume 0 true
        ).playLongSequence SKey.accelGears false now) := by
  simp only [Engine.update, hstate, Engine.launchHoldBranch]
  rw [if_pos hthr]
  exact ⟨rfl, rfl, rfl⟩

/-- C4: whenever the state machine is in LAUNCH_HOLD and the
conditioned throttle reaches ≥ 0.98, in that same tick the state
becomes ACCELERATING, the launch-control sounds are stopped with zero
fade (if the SFX channel carried a launch-control clip it is
hard-stopped, not fading; in any case no launch-control clip remains),
both launch-control flags are cleared, and the full-acceleration long
sequence starts without any crossfade: the inactive long voice is
hard-stopped and `accel_gears` plays immediately at full (master)
volume on the active voice, with no crossfade transition alive. -/
theorem launch_hold_full_throttle_transition (e : Engine) (dt thr now : ℚ)
    (hstate : e.state = EState.LAUNCH_HOLD) (hthr : thr ≥ 49/50)
    (hload : e.sm.loaded SKey.accelGears = true) :
    (e.update dt thr now).state = EState.ACCELERATING ∧
    (e.update dt thr now).sm.launchControlSoundsActive = false ∧
    (e.update dt thr now).sm.waitingForLaunchHoldLoop = false ∧
    ((e.sm.channelSfx.playing = some SKey.lcEngage ∨
        e.sm.channelSfx.playing = some SKey.lcHoldLoop) →
      (e.update dt thr now).sm.channelSfx.playing = none ∧
      (e.update dt thr now).sm.channelSfx.fading = false) ∧
    (e.update dt thr now).sm.channelSfx.playing ≠ some SKey.lcEngage ∧
    (e.update dt thr now).sm.channelSfx.playing ≠ some SKey.lcHoldLoop ∧
    (e.update dt thr now).sm.activeLongChannel.playing = some SKey.accelGears ∧
    (e.update dt thr now).sm.activeLongChannel.volume = MASTER_ENGINE_VOL ∧
    (e.update dt thr now).sm.activeLongChannel.fading = false ∧
    (e.update dt thr now).sm.otherLongChannel.playing = none ∧
    (e.update dt thr now).sm.transitioningLongSound = false := by
  obtain ⟨hst, -, hsm⟩ := update_launchHold_shape e dt thr now hstate hthr
  set smA := (e.sm.updateLongSequenceCrossfade now).updateIdleFade dt with hsmA
  set sm0 := smA.update with hsm0def
  set sm1 := sm0.setIdleTargetVolume VERY_LOW_IDLE_VOLUME_DURING_LAUNCH true with hsm1def
  set sm2 := sm1.stopLaunchControlSequence 0 with hsm2def
  set sm3 := sm2.setIdleTargetVolume 0 true with hsm3def
  have hsfxA : smA.channelSfx = e.sm.channelSfx := by
    rw [hsmA, (updateIdleFade_frame _ _).1, (updateLongSequenceCrossfade_frame _ _).1]
  have hload3 : sm3.loaded SKey.accelGears = true := by
    rw [hsm3def, (setIdleTargetVolume_frame _ _ _).2.2.2.1,
      hsm2def, (stopLaunchControlSequence_frame _ _).2.2.1,
      hsm1def, (setIdleTargetVolume_frame _ _ _).2.2.2.1,
      hsm0def, (smUpdate_frame _).2.2.2.2.1,
      hsmA, (updateIdleFade_frame _ _).2.2.2.1,
      (updateLongSequenceCrossfade_frame _ _).2.2.2.1]
    exact hload
  obtain ⟨hpAct, hpOth, hpTr, hpSfx, hpWait, hpLc⟩ :=
    playLongSequence_noTransition sm3 SKey.accelGears now hload3
  have hsfx1 : sm1.channelSfx = sm0.channelSfx :=
    (setIdleTargetVolume_frame _ _ _).1
  have hsfx3 : sm3.channelSfx = sm2.channelSfx :=
    (setIdleTargetVolume_frame _ _ _).1
  have hfinalSfx : (e.update dt thr now).sm.channelSfx = sm2.channelSfx := by
    rw [hsm, hpSfx, hsfx3]
  have hcases : sm1.channelSfx.playing = e.sm.channelSfx.playing ∨
      sm1.channelSfx.playing = some SKey.lcHoldLoop := by
    rw [hsfx1]
    rcases smUpdate_sfx_cases smA with h | h
    · rw [hsm0def, h, hsfxA]
      exact Or.inl rfl
    · rw [hsm0def, h]
      exact Or.inr rfl
  refine ⟨hst, ?_, ?_, ?_, ?_, ?_, ?_, ?_, ?_, ?_, ?_⟩
  · rw [hsm, hpLc, hsm3def, (setIdleTargetVolume_frame _ _ _).2.2.1,
      hsm2def, (stopLaunchControlSequence_frame _ _).2.1]
  · rw [hsm, hpWait, hsm3def, (setIdleTargetVolume_frame _ _ _).2.1,
      hsm2def, (stopLaunchControlSequence_frame _ _).1]
  · intro h
    have hlc : sm1.channelSfx.playing = some SKey.lcEngage ∨
        sm1.channelSfx.playing = some SKey.lcHoldLoop := by
      rcases hcases with hc | hc
      · rw [hc]; exact h
      · exact Or.inr hc
    have := (stopLaunchControlSequence_zero_sfx sm1).1 hlc
    rw [hfinalSfx, hsm2def]
    exact this
  · by_cases hlc : sm1.channelSfx.playing = some SKey.lcEngage ∨
        sm1.channelSfx.playing = some SKey.lcHoldLoop
    · have := (stopLaunchControlSequence_zero_sfx sm1).1 hlc
      rw [hfinalSfx, hsm2def, this.1]
      simp
    · have := (stopLaunchControlSequence_zero_sfx sm1).2 hlc
      rw [hfinalSfx, hsm2def, this]
      intro hc
      exact hlc (Or.inl hc)
  · by_cases hlc : sm1.channelSfx.playing = some SKey.lcEngage ∨
        sm1.channelSfx.playing = some SKey.lcHoldLoop
    · have := (stopLaunchControlSequence_zero_sfx sm1).1 hlc
      rw [hfinalSfx, hsm2def, this.1]
      simp
    · have := (stopLaunchControlSequence_zero_sfx sm1).2 hlc
      rw [hfinalSfx, hsm2def, this]
      intro hc
      exact hlc (Or.inr hc)
  · rw [hsm, hpAct]
    rfl
  · rw [hsm, hpAct]
    rfl
  · rw [hsm, hpAct]
    rfl
  · rw [hsm, hpOth]
    rfl
  · rw [hsm, hpTr]

/-- An engine holding launch control, the SFX channel looping the
launch-control hold clip. -/
def launchDemoEngine : Engine :=
  { Engine.init (SM.init fun _ => true) with
      state := EState.LAUNCH_HOLD,
      sm := { SM.init (fun _ => true) with
                channelSfx := { playing := some SKey.lcHoldLoop, volume := 1, fading := false },
                launchControlSoundsActive := true } }

/-- C4 witness: the launch transition on the concrete holding engine
with the next tick's throttle at 1.0. -/
theorem launch_hold_full_throttle_transition_witness :
    (launchDemoEngine.update (1/60) 1 2).state = EState.ACCELERATING ∧
    (launchDemoEngine.update (1/60) 1 2).sm.launchControlSoundsActive = false ∧
    (launchDemoEngine.update (1/60) 1 2).sm.waitingForLaunchHoldLoop = false ∧
    ((launchDemoEngine.sm.channelSfx.playing = some SKey.lcEngage ∨
        launchDemoEngine.sm.channelSfx.playing = some SKey.lcHoldLoop) →
      (launchDemoEngine.update (1/60) 1 2).sm.channelSfx.playing = none ∧
      (launchDemoEngine.update (1/60) 1 2).sm.channelSfx.fading = false) ∧
    (launchDemoEngine.update (1/60) 1 2).sm.channelSfx.playing ≠ some SKey.lcEngage ∧
    (launchDemoEngine.update (1/60) 1 2).sm.channelSfx.playing ≠ some SKey.lcHoldLoop ∧
    (launchDemoEngine.update (1/60) 1 2).sm.activeLongChannel.playing =
      some SKey.accelGears ∧
    (launchDemoEngine.update (1/60) 1 2).sm.activeLongChannel.volume =
      MASTER_ENGINE_VOL ∧
    (launchDemoEngine.update (1/60) 1 2).sm.activeLongChannel.fading = false ∧
    (launchDemoEngine.update (1/60) 1 2).sm.otherLongChannel.playing = none ∧
    (launchDemoEngine.update (1/60) 1 2).sm.transitioningLongSound = false :=
  launch_hold_full_throttle_transition launchDemoEngine (1/60) 1 2 rfl
    (by norm_num) rfl

/-! ## Claim C5 : retrigger lockout -/

/-- The SFX dispatch leaves the gesture bookkeeping fields alone. -/
lemma gestureDispatch_frame (e : Engine) (now pk : ℚ) :
    (Engine.gestureDispatch e now pk).1.gestureLockoutUntilTime =
      e.gestureLockoutUntilTime ∧
    (Engine.gestureDispatch e now pk).1.peakThrottleInGesture =
      e.peakThrottleInGesture ∧
    (Engine.gestureDispatch e now pk).1.inPotentialGesture = e.inPotentialGesture := by
  simp only [Engine.gestureDispatch]
  split_ifs <;> simp

/-- When the open-window tail resolves (returns `some p`), it has set
the lockout to `currentTime + lockoutDuration`, closed the window, and
`p` is the recorded peak. -/
lemma gestureResolve_some (e : Engine) (t old p : ℚ)
    (h : (Engine.gestureResolve e t old).2 = some p) :
    (Engine.gestureResolve e t old).1.gestureLockoutUntilTime =
      t + GESTURE_RETRIGGER_LOCKOUT ∧
    p = (Engine.gestureResolve e t old).1.peakThrottleInGesture ∧
    (Engine.gestureResolve e t old).1.inPotentialGesture = false := by
  simp only [Engine.gestureResolve] at h ⊢
  split_ifs at h ⊢
  all_goals
    first
      | (exfalso; simpa using h)
      | (obtain rfl : _ = p := by simpa using h
         refine ⟨?_, ?_, ?_⟩ <;>
           simp [(gestureDispatch_frame _ _ _).1, (gestureDispatch_frame _ _ _).2.1,
             (gestureDispatch_frame _ _ _).2.2])

lemma checkPlayfulGestures_resolution (e : Engine) (t old p : ℚ)
    (h : (Engine.checkPlayfulGestures e t old).2 = some p) :
    (Engine.checkPlayfulGestures e t old).1.gestureLockoutUntilTime =
      t + GESTURE_RETRIGGER_LOCKOUT ∧
    p = (Engine.checkPlayfulGestures e t old).1.peakThrottleInGesture ∧
    (Engine.checkPlayfulGestures e t old).1.inPotentialGesture = false := by
  simp only [Engine.checkPlayfulGestures] at h ⊢
  split_ifs at h ⊢ <;>
    first
      | simp at h
      | exact gestureResolve_some _ _ _ _ h

/-- Part (b) of C5: while the lockout is in effect (any time strictly
before `lockoutUntil`) and no window is open, a detector call opens no
window and recognizes nothing. -/
lemma checkPlayfulGestures_no_open_before_lockout (e : Engine) (t old : ℚ)
    (hflag : e.inPotentialGesture = false) (hlock : t < e.gestureLockoutUntilTime) :
    (Engine.checkPlayfulGestures e t old).1.inPotentialGesture = false ∧
    (Engine.checkPlayfulGestures e t old).2 = none := by
  simp only [Engine.checkPlayfulGestures]
  by_cases h1 : e.sm.isLongSequenceBusy = true ∨ e.state = EState.LAUNCH_HOLD ∨
      e.sm.isLaunchControlActive = true
  · rw [if_pos h1]
    exact ⟨rfl, rfl⟩
  · rw [if_neg h1,
      if_neg (show ¬(¬e.inPotentialGesture = true ∧ t ≥ e.gestureLockoutUntilTime) from
        fun hc => absurd hc.2 (not_le.mpr hlock)),
      if_neg (show ¬(e.inPotentialGesture = true) from by simp [hflag])]
    exact ⟨hflag, rfl⟩

/-- The engine for scenario D: idling, fresh, detector ready. -/
def scenarioDEngine : Engine :=
  { Engine.init (SM.init fun _ => true) with state := EState.IDLING }

/-- The detector state right after scenario D's first blip resolves at
time 1.04: window closed, lockout 1.34, one blip voice sounding, idle
ducked to the during-SFX level. -/
def scenarioDResolved : Engine :=
  { scenarioDEngine with
    currentThrottle := 1/25,
    throttleHistory := [(1, 0), (51/50, 3/10), (26/25, 1/25)],
    inPotentialGesture := false, gestureStartTime := 51/50,
    peakThrottleInGesture := 3/10,
    gestureLockoutUntilTime := 67/50,
    lastLightBlipPlayedTime := 26/25,
    timeAt100Throttle := 0,
    state := EState.PLAYFUL_REV,
    sm := { SM.init (fun _ => true) with
            blipChannels :=
              [{ playing := some SKey.lightBlip, volume := 9/200, fading := false },
               { playing := none, volume := 1, fading := false },
               { playing := none, volume := 1, fading := false }],
            idleTargetVolume := 3/20,
            idleIsFading := true } }

/-- Scenario D's throttle pattern: a blip rising at 1.02 and falling at
1.04, then a second qualifying blip 0.1 s later (rising at 1.14,
falling at 1.16) — inside the 0.3 s lockout. -/
def scenarioDTrace : List (ℚ × ℚ) :=
  [(1, 0), (51/50, 3/10), (26/25, 1/25), (57/50, 3/10), (29/25, 1/25)]

lemma gestureScenarioStep1 :
    Engine.feedGesture scenarioDEngine 1 0 =
      ({ scenarioDEngine with currentThrottle := 0, throttleHistory := [(1, 0)] },
        none) := by
  norm_num [scenarioDEngine, Engine.feedGesture, Engine.checkPlayfulGestures, Engine.gestureResolve,
    Engine.gestureDispatch, Engine.init, SM.init, SM.isLongSequenceBusy,
    SM.isLaunchControlActive, dequeAppend, GESTURE_MAX_POINTS, THROTTLE_DEADZONE_LOW,
    Chan.getBusy, Engine.mk.injEq, SM.mk.injEq, Chan.mk.injEq, Prod.mk.injEq,
    List.replicate]

lemma gestureScenarioStep2 :
    Engine.feedGesture
        { scenarioDEngine with currentThrottle := 0, throttleHistory := [(1, 0)] }
        (51/50) (3/10) =
      ({ scenarioDEngine with
          currentThrottle := 3/10,
          throttleHistory := [(1, 0), (51/50, 3/10)],
          inPotentialGesture := true, gestureStartTime := 51/50,
          peakThrottleInGesture := 3/10 }, none) := by
  norm_num [scenarioDEngine, Engine.feedGesture, Engine.checkPlayfulGestures, Engine.gestureResolve,
    Engine.gestureDispatch, Engine.init, SM.init, SM.isLongSequenceBusy,
    SM.isLaunchControlActive, dequeAppend, GESTURE_MAX_POINTS, THROTTLE_DEADZONE_LOW,
    GESTURE_WINDOW_TIME, Chan.getBusy, Engine.mk.injEq, SM.mk.injEq, Chan.mk.injEq,
    Prod.mk.injEq, List.replicate, max_def, min_def]
  decide

lemma gestureScenarioStep3 :
    Engine.feedGesture
        { scenarioDEngine with
          currentThrottle := 3/10,
          throttleHistory := [(1, 0), (51/50, 3/10)],
          inPotentialGesture := true, gestureStartTime := 51/50,
          peakThrottleInGesture := 3/10 }
        (26/25) (1/25) =
      (scenarioDResolved, some (3/10)) := by
  norm_num [scenarioDResolved, scenarioDEngine, Engine.feedGesture,
    Engine.checkPlayfulGestures, Engine.gestureResolve, Engine.gestureDispatch, Engine.init, SM.init,
    SM.isLongSequenceBusy, SM.isLaunchControlActive, SM.isTurboLimiterSfxBusy,
    SM.setIdleTargetVolume, SM.playLightBlip, SM.playBlipOnFirstFree, dequeAppend,
    GESTURE_MAX_POINTS, THROTTLE_DEADZONE_LOW, GESTURE_WINDOW_TIME,
    GESTURE_RETRIGGER_LOCKOUT, LIGHT_BLIP_GESTURE_COOLDOWN,
    LOW_IDLE_VOLUME_DURING_SFX, LIGHT_BLIP_VOLUME, MASTER_ENGINE_VOL,
    NUM_LIGHT_BLIP_CHANNELS, Chan.getBusy, Chan.play, Chan.setVolume,
    Engine.mk.injEq, SM.mk.injEq, Chan.mk.injEq, Prod.mk.injEq,
    NORMAL_IDLE_VOLUME, List.replicate, List.isEmpty, max_def, min_def,
    abs_eq_max_neg]
  decide

lemma gestureScenarioStep4 :
    Engine.feedGesture scenarioDResolved (57/50) (3/10) =
      ({ scenarioDResolved with
          currentThrottle := 3/10,
          throttleHistory := [(1, 0), (51/50, 3/10), (26/25, 1/25), (57/50, 3/10)] },
        none) := by
  norm_num [scenarioDResolved, scenarioDEngine, Engine.feedGesture,
    Engine.checkPlayfulGestures, Engine.gestureResolve, Engine.gestureDispatch, Engine.init, SM.init,
    SM.isLongSequenceBusy, SM.isLaunchControlActive, dequeAppend,
    GESTURE_MAX_POINTS, THROTTLE_DEADZONE_LOW, Chan.getBusy, Engine.mk.injEq,
    SM.mk.injEq, Chan.mk.injEq, Prod.mk.injEq, List.replicate]

lemma gestureScenarioStep5 :
    Engine.feedGesture
        { scenarioDResolved with
          currentThrottle := 3/10,
          throttleHistory := [(1, 0), (51/50, 3/10), (26/25, 1/25), (57/50, 3/10)] }
        (29/25) (1/25) =
      ({ scenarioDResolved with
          currentThrottle := 1/25,
          throttleHistory :=
            [(1, 0), (51/50, 3/10), (26/25, 1/25), (57/50, 3/10), (29/25, 1/25)] },
        none) := by
  norm_num [scenarioDResolved, scenarioDEngine, Engine.feedGesture,
    Engine.checkPlayfulGestures, Engine.gestureResolve, Engine.gestureDispatch, Engine.init, SM.init,
    SM.isLongSequenceBusy, SM.isLaunchControlActive, dequeAppend,
    GESTURE_MAX_POINTS, THROTTLE_DEADZONE_LOW, Chan.getBusy, Engine.mk.injEq,
    SM.mk.injEq, Chan.mk.injEq, Prod.mk.injEq, List.replicate]

/-- Scenario D, assembled: over the whole two-blip pattern exactly the
third call resolves (peak 0.3), exactly one blip voice is left sounding,
and the lockout is 1.04 + 0.3 = 1.34. -/
lemma gestureScenarioRun :
    (Engine.gestureRun scenarioDEngine scenarioDTrace).2 =
      [none, none, some (3/10), none, none] ∧
    ((Engine.gestureRun scenarioDEngine scenarioDTrace).1.sm.blipChannels.filter
        (fun c => c.getBusy)).length = 1 ∧
    (Engine.gestureRun scenarioDEngine scenarioDTrace).1.gestureLockoutUntilTime =
      67/50 := by
  have hrun : Engine.gestureRun scenarioDEngine scenarioDTrace =
      ({ scenarioDResolved with
          currentThrottle := 1/25,
          throttleHistory :=
            [(1, 0), (51/50, 3/10), (26/25, 1/25), (57/50, 3/10), (29/25, 1/25)] },
        [none, none, some (3/10), none, none]) := by
    show Engine.gestureRun scenarioDEngine
        ((1, 0) :: (51/50, 3/10) :: (26/25, 1/25) :: (57/50, 3/10) ::
          (29/25, 1/25) :: []) = _
    rw [Engine.gestureRun, gestureScenarioStep1]
    rw [Engine.gestureRun, gestureScenarioStep2]
    rw [Engine.gestureRun, gestureScenarioStep3]
    rw [Engine.gestureRun, gestureScenarioStep4]
    rw [Engine.gestureRun, gestureScenarioStep5]
    rfl
  rw [hrun]
  norm_num [scenarioDResolved, scenarioDEngine, SM.init, Chan.getBusy, List.filter]

/-- C5: (a) when a gesture resolves at time `t` the detector sets
`lockoutUntil = t + lockoutDuration`, closes the window and returns the
recorded peak; (b) no new gesture window can be opened at any time
strictly before `lockoutUntil`; (c) consequently, for scenario D's two
gesture-qualifying blips fed 0.1 s apart (less than the 0.3 s lockout),
exactly one recognition fires, exactly one rev (light-blip) sound plays,
and the second blip is suppressed. -/
theorem gesture_retrigger_lockout :
    (∀ (e : Engine) (t old p : ℚ),
        (Engine.checkPlayfulGestures e t old).2 = some p →
        (Engine.checkPlayfulGestures e t old).1.gestureLockoutUntilTime =
          t + GESTURE_RETRIGGER_LOCKOUT ∧
        p = (Engine.checkPlayfulGestures e t old).1.peakThrottleInGesture ∧
        (Engine.checkPlayfulGestures e t old).1.inPotentialGesture = false) ∧
    (∀ (e : Engine) (t old : ℚ), e.inPotentialGesture = false →
        t < e.gestureLockoutUntilTime →
        (Engine.checkPlayfulGestures e t old).1.inPotentialGesture = false ∧
        (Engine.checkPlayfulGestures e t old).2 = none) ∧
    ((Engine.gestureRun scenarioDEngine scenarioDTrace).2 =
        [none, none, some (3/10), none, none] ∧
      ((Engine.gestureRun scenarioDEngine scenarioDTrace).1.sm.blipChannels.filter
          (fun c => c.getBusy)).length = 1 ∧
      (Engine.gestureRun scenarioDEngine scenarioDTrace).1.gestureLockoutUntilTime =
        67/50) :=
  ⟨checkPlayfulGestures_resolution, checkPlayfulGestures_no_open_before_lockout,
    gestureScenarioRun⟩

/-- C5 witness: the lockout behaviour instantiated on scenario D's
resolving call (time 1.04) and on the suppressed call at 1.14 < 1.34. -/
theorem gesture_retrigger_lockout_witness :
    ((Engine.checkPlayfulGestures
        { scenarioDEngine with
          currentThrottle := 1/25,
          throttleHistory := [(1, 0), (51/50, 3/10), (26/25, 1/25)],
          inPotentialGesture := true, gestureStartTime := 51/50,
          peakThrottleInGesture := 3/10 } (26/25) (3/10)).1.gestureLockoutUntilTime =
        26/25 + GESTURE_RETRIGGER_LOCKOUT) ∧
    ((Engine.checkPlayfulGestures
        { scenarioDResolved with currentThrottle := 3/10 } (57/50) (1/25)
      ).1.inPotentialGesture = false ∧
      (Engine.checkPlayfulGestures
        { scenarioDResolved with currentThrottle := 3/10 } (57/50) (1/25)).2 = none) := by
  constructor
  · have hres : (Engine.checkPlayfulGestures
        { scenarioDEngine with
          currentThrottle := 1/25,
          throttleHistory := [(1, 0), (51/50, 3/10), (26/25, 1/25)],
          inPotentialGesture := true, gestureStartTime := 51/50,
          peakThrottleInGesture := 3/10 } (26/25) (3/10)).2 = some (3/10) := by
      have := gestureScenarioStep3
      simp only [Engine.feedGesture, scenarioDEngine] at this ⊢
      rw [show (dequeAppend GESTURE_MAX_POINTS
          ([(1, 0), (51/50, 3/10)] : List (ℚ × ℚ)) (26/25, 1/25)) =
          [(1, 0), (51/50, 3/10), (26/25, 1/25)] from by
            norm_num [dequeAppend, GESTURE_MAX_POINTS]] at this
      rw [this]
    exact (gesture_retrigger_lockout.1 _ (26/25) (3/10) (3/10) hres).1
  · exact gesture_retrigger_lockout.2.1 _ (57/50) (1/25) rfl
      (by norm_num [scenarioDResolved, scenarioDEngine])

/-! ## Claim C1 : Hellcat RPM bounds -/

/-- The Hellcat engine invariant: RPM between idle and redline, gear
1-5, smoothed throttle nonnegative. -/
def HInv (st : HState) : Prop :=
  HELLCAT_IDLE_RPM ≤ st.simulatedRpm ∧ st.simulatedRpm ≤ HELLCAT_REDLINE_RPM ∧
  1 ≤ st.simulatedGear ∧ st.simulatedGear ≤ 5 ∧ 0 ≤ st.smoothedThrottle

lemma hellcatGearAccelMultiplier_nonneg (g : ℤ) : 0 ≤ hellcatGearAccelMultiplier g := by
  unfold hellcatGearAccelMultiplier
  split_ifs <;> norm_num

lemma hellcatGearEngineBraking_nonneg (g : ℤ) : 0 ≤ hellcatGearEngineBraking g := by
  unfold hellcatGearEngineBraking
  split_ifs <;> norm_num

lemma checkSimpleRevGestures_frame (st : HState) (t : ℚ) :
    (st.checkSimpleRevGestures t).simulatedRpm = st.simulatedRpm ∧
    (st.checkSimpleRevGestures t).simulatedGear = st.simulatedGear ∧
    (st.checkSimpleRevGestures t).smoothedThrottle = st.smoothedThrottle ∧
    (st.checkSimpleRevGestures t).state = st.state ∧
    (st.checkSimpleRevGestures t).rawThrottle = st.rawThrottle := by
  simp only [HState.checkSimpleRevGestures]
  split_ifs <;> exact ⟨rfl, rfl, rfl, rfl, rfl⟩

/-- The driving-state RPM physics keeps RPM inside
`[idleRpm, redlineRpm]` and leaves gear, throttle and state alone. -/
lemma drivingRpmPhysics_bounds (st : HState) (dt : ℚ)
    (hr1 : HELLCAT_IDLE_RPM ≤ st.simulatedRpm) (hsm : 0 ≤ st.smoothedThrottle)
    (hdt : 0 ≤ dt) :
    HELLCAT_IDLE_RPM ≤ (st.drivingRpmPhysics dt).simulatedRpm ∧
    (st.drivingRpmPhysics dt).simulatedRpm ≤ HELLCAT_REDLINE_RPM ∧
    (st.drivingRpmPhysics dt).simulatedGear = st.simulatedGear ∧
    (st.drivingRpmPhysics dt).smoothedThrottle = st.smoothedThrottle ∧
    (st.drivingRpmPhysics dt).state = st.state := by
  have hm := hellcatGearAccelMultiplier_nonneg st.simulatedGear
  have hinc : 0 ≤ HELLCAT_RPM_ACCEL_BASE * st.smoothedThrottle *
      hellcatGearAccelMultiplier st.simulatedGear * dt :=
    mul_nonneg (mul_nonneg (mul_nonneg (by norm_num [HELLCAT_RPM_ACCEL_BASE]) hsm) hm) hdt
  simp only [HState.drivingRpmPhysics]
  split_ifs with h1 h2
  all_goals simp only []
  · exact ⟨le_min (by linarith) (by norm_num [HELLCAT_IDLE_RPM, HELLCAT_REDLINE_RPM]),
      min_le_right _ _, trivial, trivial, trivial⟩
  · exact ⟨le_min (le_max_left _ _) (by norm_num [HELLCAT_IDLE_RPM, HELLCAT_REDLINE_RPM]),
      min_le_right _ _, trivial, trivial, trivial⟩
  · exact ⟨le_min (le_max_left _ _) (by norm_num [HELLCAT_IDLE_RPM, HELLCAT_REDLINE_RPM]),
      min_le_right _ _, trivial, trivial, trivial⟩

/-- The upshift block keeps RPM and gear in bounds. -/
lemma drivingUpshift_bounds (st : HState) (ct : ℚ)
    (hr1 : HELLCAT_IDLE_RPM ≤ st.simulatedRpm)
    (hr2 : st.simulatedRpm ≤ HELLCAT_REDLINE_RPM)
    (hg1 : 1 ≤ st.simulatedGear) (hg2 : st.simulatedGear ≤ 5) :
    HELLCAT_IDLE_RPM ≤ (st.drivingUpshift ct).simulatedRpm ∧
    (st.drivingUpshift ct).simulatedRpm ≤ HELLCAT_REDLINE_RPM ∧
    1 ≤ (st.drivingUpshift ct).simulatedGear ∧
    (st.drivingUpshift ct).simulatedGear ≤ 5 ∧
    (st.drivingUpshift ct).smoothedThrottle = st.smoothedThrottle ∧
    (st.drivingUpshift ct).engineLoad = st.engineLoad ∧
    (st.drivingUpshift ct).state = st.state := by
  simp only [HState.drivingUpshift]
  split_ifs with h
  all_goals simp only []
  · obtain ⟨-, hg5, -⟩ := h
    have hgq1 : (1 : ℚ) ≤ (st.simulatedGear : ℚ) := by exact_mod_cast hg1
    have hgq4 : (st.simulatedGear : ℚ) ≤ 4 := by
      have : st.simulatedGear ≤ 4 := by omega
      exact_mod_cast this
    refine ⟨?_, ?_, by omega, by omega, trivial, trivial, trivial⟩
    · show HELLCAT_IDLE_RPM ≤ 1800 + (st.simulatedGear + 1 : ℤ) * 100
      push_cast
      norm_num [HELLCAT_IDLE_RPM]
      linarith
    · show (1800 + (st.simulatedGear + 1 : ℤ) * 100 : ℚ) ≤ HELLCAT_REDLINE_RPM
      push_cast
      norm_num [HELLCAT_REDLINE_RPM]
      linarith
  · exact ⟨hr1, hr2, hg1, hg2, trivial, trivial, trivial⟩

/-- The downshift block keeps RPM and gear in bounds. -/
lemma drivingDownshift_bounds (st : HState) (ct : ℚ)
    (hr1 : HELLCAT_IDLE_RPM ≤ st.simulatedRpm)
    (hr2 : st.simulatedRpm ≤ HELLCAT_REDLINE_RPM)
    (hg1 : 1 ≤ st.simulatedGear) (hg2 : st.simulatedGear ≤ 5) :
    HELLCAT_IDLE_RPM ≤ (st.drivingDownshift ct).simulatedRpm ∧
    (st.drivingDownshift ct).simulatedRpm ≤ HELLCAT_REDLINE_RPM ∧
    1 ≤ (st.drivingDownshift ct).simulatedGear ∧
    (st.drivingDownshift ct).simulatedGear ≤ 5 ∧
    (st.drivingDownshift ct).smoothedThrottle = st.smoothedThrottle ∧
    (st.drivingDownshift ct).state = st.state := by
  simp only [HState.drivingDownshift]
  split_ifs with h hd
  all_goals simp only []
  · obtain ⟨hgt, -⟩ := h
    have hgq1 : (0 : ℚ) ≤ ((st.simulatedGear - 1 : ℤ) : ℚ) := by
      have : (1 : ℤ) ≤ st.simulatedGear - 1 := by omega
      exact_mod_cast le_trans zero_le_one this
    refine ⟨?_, ?_, by omega, by omega, trivial, trivial⟩
    · refine le_min (by norm_num [HELLCAT_IDLE_RPM, HELLCAT_REDLINE_RPM]) ?_
      push_cast at hgq1 ⊢
      norm_num [HELLCAT_IDLE_RPM] at hr1 ⊢
      linarith
    · refine le_trans (min_le_left _ _) (by norm_num [HELLCAT_REDLINE_RPM])
  · exact ⟨hr1, hr2, hg1, hg2, trivial, trivial⟩
  · exact ⟨hr1, hr2, hg1, hg2, trivial, trivial⟩

/-- The idle-state handler decays RPM monotonically toward idle and
keeps all invariant fields in range. -/
lemma handleIdleState_bounds (st : HState) (ct dt : ℚ)
    (hr1 : HELLCAT_IDLE_RPM ≤ st.simulatedRpm)
    (hr2 : st.simulatedRpm ≤ HELLCAT_REDLINE_RPM) (hdt : 0 ≤ dt) :
    HELLCAT_IDLE_RPM ≤ (st.handleIdleState ct dt).simulatedRpm ∧
    (st.handleIdleState ct dt).simulatedRpm ≤ HELLCAT_REDLINE_RPM ∧
    (st.handleIdleState ct dt).simulatedRpm ≤ st.simulatedRpm ∧
    (st.handleIdleState ct dt).simulatedGear = st.simulatedGear ∧
    (st.handleIdleState ct dt).smoothedThrottle = st.smoothedThrottle := by
  obtain ⟨f1, f2, f3, -, -⟩ := checkSimpleRevGestures_frame st ct
  have hdec : 0 ≤ HELLCAT_RPM_DECAY_COAST * dt :=
    mul_nonneg (by norm_num [HELLCAT_RPM_DECAY_COAST]) hdt
  simp only [HState.handleIdleState]
  split_ifs with h1 h2 h3 h4 h5
  all_goals simp only [f1, f2, f3]
  all_goals
    refine ⟨?_, ?_, ?_, by trivial, by trivial⟩ <;>
      first
        | exact le_max_left _ _
        | exact hr1
        | exact hr2
        | exact le_refl _
        | exact max_le hr1 (by linarith)
        | exact max_le (by norm_num [HELLCAT_IDLE_RPM, HELLCAT_REDLINE_RPM]) (by linarith)

/-- One Hellcat tick preserves the invariant, and in IDLE the RPM never
rises (monotone decay toward idle). -/
lemma hellcatUpdate_inv (st : HState) (dt raw now : ℚ) (sb : Bool)
    (h : HInv st) (hdt : 0 ≤ dt) (hraw : 0 ≤ raw) :
    HInv (st.update dt raw now sb) ∧
    (st.state = RState.IDLE →
      (st.update dt raw now sb).simulatedRpm ≤ st.simulatedRpm) := by
  obtain ⟨h1, h2, h3, h4, h5⟩ := h
  have hsm' : 0 ≤ HELLCAT_EMA_ALPHA * raw + (1 - HELLCAT_EMA_ALPHA) * st.smoothedThrottle := by
    norm_num [HELLCAT_EMA_ALPHA]
    linarith
  cases hstate : st.state
  case IDLE =>
      simp only [HState.update, hstate]
      obtain ⟨b1, b2, b3, b4, b5⟩ := handleIdleState_bounds
        { st with state := RState.IDLE, previousThrottle := st.rawThrottle,
                  rawThrottle := raw,
                  smoothedThrottle := HELLCAT_EMA_ALPHA * raw +
                    (1 - HELLCAT_EMA_ALPHA) * st.smoothedThrottle,
                  engineLoad := raw - st.rawThrottle }
        now dt h1 h2 hdt
      refine ⟨⟨b1, b2, ?_, ?_, ?_⟩, fun _ => b3⟩
      · rw [b4]; exact h3
      · rw [b4]; exact h4
      · rw [b5]; exact hsm'
  case DRIVING =>
      simp only [HState.update, hstate, HState.handleDrivingState]
      split_ifs with hci
      · exact ⟨⟨h1, h2, h3, h4, hsm'⟩, fun hc => by simp [hstate] at hc⟩
      · obtain ⟨a1, a2, a3, a4, -⟩ := drivingRpmPhysics_bounds
          { st with state := RState.DRIVING, previousThrottle := st.rawThrottle,
                    rawThrottle := raw,
                    smoothedThrottle := HELLCAT_EMA_ALPHA * raw +
                      (1 - HELLCAT_EMA_ALPHA) * st.smoothedThrottle,
                    engineLoad := raw - st.rawThrottle }
          dt h1 hsm' hdt
        obtain ⟨u1, u2, u3, u4, u5, -, -⟩ := drivingUpshift_bounds _ now a1 a2
          (by rw [a3]; exact h3) (by rw [a3]; exact h4)
        obtain ⟨d1, d2, d3, d4, d5, -⟩ := drivingDownshift_bounds _ now u1 u2 u3 u4
        refine ⟨⟨d1, d2, d3, d4, ?_⟩, fun hc => by simp [hstate] at hc⟩
        rw [d5, u5, a4]
        exact hsm'
  all_goals
    simp only [HState.update, hstate]
  case ENGINE_OFF =>
      split_ifs with htr
      · exact ⟨⟨le_refl _, by norm_num [HELLCAT_IDLE_RPM, HELLCAT_REDLINE_RPM],
          h3, h4, le_refl 0⟩, fun hc => by simp [hstate] at hc⟩
      · exact ⟨⟨h1, h2, h3, h4, hsm'⟩, fun hc => by simp [hstate] at hc⟩
  case STARTING =>
      split_ifs with htr
      · exact ⟨⟨h1, h2, h3, h4, hsm'⟩, fun hc => by simp [hstate] at hc⟩
      · exact ⟨⟨h1, h2, h3, h4, hsm'⟩, fun hc => by simp [hstate] at hc⟩
  all_goals
    exact ⟨⟨h1, h2, h3, h4, hsm'⟩, fun hc => by simp [hstate] at hc⟩

/-- Invariant holds along any valid run. -/
lemma hellcatRun_inv (ticks : List HState.HTick) :
    ∀ st : HState, HInv st → (∀ t ∈ ticks, t.valid) → HInv (HState.run st ticks) := by
  induction ticks with
  | nil => intro st h _; simpa [HState.run] using h
  | cons t rest ih =>
      intro st h hv
      have ht := hv t (by simp)
      have hstep := (hellcatUpdate_inv st t.dt t.raw t.now t.startupBusy h
        ht.1 ht.2.1).1
      have : HState.run st (t :: rest) =
          HState.run (st.update t.dt t.raw t.now t.startupBusy) rest := by
        simp [HState.run, List.foldl_cons]
      rw [this]
      exact ih _ hstep (fun u hu => hv u (by simp [hu]))

/-- The initial Hellcat engine satisfies the invariant. -/
lemma hellcatInit_inv : HInv HState.init := by
  refine ⟨le_refl _, ?_, ?_, ?_, le_refl 0⟩ <;>
    norm_num [HState.init, HELLCAT_IDLE_RPM, HELLCAT_REDLINE_RPM]

/-- C1: Hellcat RPM bounds.  (i) For every sequence of valid ticks
(nonnegative frame time, raw throttle calibrated into [0,1]) starting
from the initial engine, the virtual RPM after the run satisfies
`idleRpm ≤ simulated_rpm ≤ redlineRpm` (750 ≤ rpm ≤ 6200) — and since
every prefix of a tick sequence is itself a tick sequence, the bounds
hold after every tick.  (ii) A single tick preserves the engine
invariant, and (iii) while the engine is in its IDLE state (no drive
clip active) the RPM is non-increasing: it decays monotonically toward
idle — only the DRIVING physics or a shift event can raise it. -/
theorem hellcat_rpm_bounds :
    (∀ ticks : List HState.HTick, (∀ t ∈ ticks, t.valid) →
        HELLCAT_IDLE_RPM ≤ (HState.run HState.init ticks).simulatedRpm ∧
        (HState.run HState.init ticks).simulatedRpm ≤ HELLCAT_REDLINE_RPM) ∧
    (∀ (st : HState) (dt raw now : ℚ) (sb : Bool),
        HInv st → 0 ≤ dt → 0 ≤ raw →
        HInv (st.update dt raw now sb) ∧
        (st.state = RState.IDLE →
          (st.update dt raw now sb).simulatedRpm ≤ st.simulatedRpm)) := by
  constructor
  · intro ticks hv
    have := hellcatRun_inv ticks HState.init hellcatInit_inv hv
    exact ⟨this.1, this.2.1⟩
  · intro st dt raw now sb h hdt hraw
    exact hellcatUpdate_inv st dt raw now sb h hdt hraw

/-- C1 witness: a two-tick full-throttle run from the initial engine
keeps RPM in bounds, and a concrete IDLE engine at 3000 RPM decays
without leaving the band. -/
theorem hellcat_rpm_bounds_witness :
    (HELLCAT_IDLE_RPM ≤
        (HState.run HState.init
          [⟨1/60, 1, 0, false⟩, ⟨1/60, 1, 1/60, false⟩]).simulatedRpm ∧
      (HState.run HState.init
          [⟨1/60, 1, 0, false⟩, ⟨1/60, 1, 1/60, false⟩]).simulatedRpm ≤
        HELLCAT_REDLINE_RPM) ∧
    (HInv (({ HState.init with state := RState.IDLE, simulatedRpm := 3000 } :
        HState).update (1/60) 0 5 false) ∧
      (({ HState.init with state := RState.IDLE, simulatedRpm := 3000 } :
          HState).update (1/60) 0 5 false).simulatedRpm ≤ 3000) := by
  constructor
  · exact hellcat_rpm_bounds.1 _
      (by intro t ht
          simp only [List.mem_cons, List.not_mem_nil, or_false] at ht
          rcases ht with rfl | rfl <;>
            exact ⟨by norm_num, by norm_num, by norm_num⟩)
  · have h := hellcat_rpm_bounds.2
      { HState.init with state := RState.IDLE, simulatedRpm := 3000 }
      (1/60) 0 5 false
      (by refine ⟨?_, ?_, ?_, ?_, ?_⟩ <;>
        norm_num [HState.init, HELLCAT_IDLE_RPM, HELLCAT_REDLINE_RPM])
      (by norm_num) (by norm_num)
    exact ⟨h.1, h.2 rfl⟩

/-! ## Claim C3 : profile switching -/

/-- Trivial engine updaters for the C3 witness (the claim's statement
holds for every `EngineUpdates`, so any instance serves). -/
def switchDemoU : EngineUpdates where
  updM4 := fun _ _ e => e
  updSupra := fun _ _ e => e
  updHellcat := fun _ _ e => e

/-- A `TripleCarSystem` mid-switch away from the M4 (index already
advanced to 1), with a busy M4 voice awaiting the hard stop. -/
def switchDemoTC : TripleCar where
  m4Engine := ⟨RState.IDLE⟩
  supraEngine := ⟨RState.ENGINE_OFF⟩
  hellcatEngine := HState.init
  m4Voices := [⟨true, true⟩, ⟨false, false⟩]
  supraVoices := [⟨false, false⟩]
  hellcatVoices := [⟨false, false⟩]
  currentCarIndex := 1
  currentCar := Car.M4
  switchingCars := true
  switchStartTime := 0
  throttleBuffer := [0, 0, 0, 0, 0]

/-- **C3**: `switch_car` is a no-op while a switch is already in
progress; otherwise it fades out every voice of the currently active
profile, advances the rotation index through the fixed order
M4 → Supra → Hellcat → M4, records the start time, and touches no
engine.  While the switch is in progress each `update` tick only
appends the raw throttle sample to the smoothing buffer (no engine
update is invoked); on the first tick at or past the fixed fade
duration the outgoing profile's voices are hard-stopped, the profile at
the advanced index becomes current, and its state machine is reset to
ENGINE_OFF (for the Hellcat also RPM, gear and shift timer) before
engine updates resume. -/
theorem profile_switch (u : EngineUpdates) (s : TripleCar) (dt raw now : ℚ) :
    (carsList.length = 3 ∧ carAt 0 = Car.M4 ∧ carAt 1 = Car.Supra ∧
      carAt 2 = Car.Hellcat) ∧
    (s.switchingCars = true → s.switchCar now = s) ∧
    (s.switchingCars = false →
      (s.switchCar now).switchingCars = true ∧
      (s.switchCar now).switchStartTime = now ∧
      (s.switchCar now).currentCarIndex = (s.currentCarIndex + 1) % 3 ∧
      (s.switchCar now).currentCar = s.currentCar ∧
      (s.switchCar now).m4Engine = s.m4Engine ∧
      (s.switchCar now).supraEngine = s.supraEngine ∧
      (s.switchCar now).hellcatEngine = s.hellcatEngine ∧
      (s.switchCar now).throttleBuffer = s.throttleBuffer ∧
      (s.currentCar = Car.M4 →
        (s.switchCar now).m4Voices = fadeOutAllSounds s.m4Voices ∧
        (s.switchCar now).supraVoices = s.supraVoices ∧
        (s.switchCar now).hellcatVoices = s.hellcatVoices) ∧
      (s.currentCar = Car.Supra →
        (s.switchCar now).supraVoices = fadeOutAllSounds s.supraVoices ∧
        (s.switchCar now).m4Voices = s.m4Voices ∧
        (s.switchCar now).hellcatVoices = s.hellcatVoices) ∧
      (s.currentCar = Car.Hellcat →
        (s.switchCar now).hellcatVoices = fadeOutAllSounds s.hellcatVoices ∧
        (s.switchCar now).m4Voices = s.m4Voices ∧
        (s.switchCar now).supraVoices = s.supraVoices)) ∧
    (s.switchingCars = true →
      now - s.switchStartTime < SUPRA_CROSSFADE_DURATION_MS / 1000 →
      TripleCar.update u s dt raw now =
        { s with throttleBuffer :=
            dequeAppend THROTTLE_SMOOTHING_WINDOW_SIZE s.throttleBuffer raw }) ∧
    (s.switchingCars = true →
      now - s.switchStartTime ≥ SUPRA_CROSSFADE_DURATION_MS / 1000 →
      (TripleCar.update u s dt raw now).switchingCars = false ∧
      (TripleCar.update u s dt raw now).currentCar = carAt s.currentCarIndex ∧
      (TripleCar.update u s dt raw now).throttleBuffer =
        dequeAppend THROTTLE_SMOOTHING_WINDOW_SIZE s.throttleBuffer raw ∧
      (s.currentCar = Car.M4 →
        (TripleCar.update u s dt raw now).m4Voices = stopAllSounds s.m4Voices) ∧
      (s.currentCar = Car.Supra →
        (TripleCar.update u s dt raw now).supraVoices =
          stopAllSounds s.supraVoices) ∧
      (s.currentCar = Car.Hellcat →
        (TripleCar.update u s dt raw now).hellcatVoices =
          stopAllSounds s.hellcatVoices) ∧
      (carAt s.currentCarIndex = Car.M4 →
        (TripleCar.update u s dt raw now).m4Engine =
          u.updM4 dt
            ((dequeAppend THROTTLE_SMOOTHING_WINDOW_SIZE s.throttleBuffer
                raw).sum /
              ((dequeAppend THROTTLE_SMOOTHING_WINDOW_SIZE s.throttleBuffer
                  raw).length : ℚ))
            { s.m4Engine with state := RState.ENGINE_OFF }) ∧
      (carAt s.currentCarIndex = Car.Supra →
        (TripleCar.update u s dt raw now).supraEngine =
          u.updSupra dt raw { s.supraEngine with state := RState.ENGINE_OFF }) ∧
      (carAt s.currentCarIndex = Car.Hellcat →
        (TripleCar.update u s dt raw now).hellcatEngine =
          u.updHellcat dt raw
            { s.hellcatEngine with
              state := RState.ENGINE_OFF,
              simulatedRpm := HELLCAT_IDLE_RPM,
              simulatedGear := 1,
              lastShiftTime := 0 })) := by
  obtain ⟨e1, e2, e3, v1, v2, v3, ci, cc, sw, st, tb⟩ := s
  refine ⟨⟨rfl, rfl, rfl, rfl⟩, ?_, ?_, ?_, ?_⟩
  · intro hs
    simp only at hs
    simp [TripleCar.switchCar, hs]
  · intro hs
    simp only at hs
    subst hs
    cases cc <;>
      simp [TripleCar.switchCar, fadeOutAllSounds, carsList]
  · intro hs hlt
    simp only at hs
    subst hs
    simp only at hlt
    simp [TripleCar.update, not_le.mpr hlt]
  · intro hs hge
    simp only at hs
    subst hs
    simp only at hge
    cases cc <;> cases hidx : carAt ci <;>
      simp [TripleCar.update, TripleCar.completeSwitch,
        TripleCar.updateActiveEngine, hge, hidx]

/-- C3 witness: a system mid-switch away from the M4 completes the
switch once 0.8 s have elapsed — the M4 voices are hard-stopped and the
Supra becomes the current profile. -/
theorem profile_switch_witness :
    switchDemoTC.switchingCars = true ∧
    (10 : ℚ) - switchDemoTC.switchStartTime ≥
      SUPRA_CROSSFADE_DURATION_MS / 1000 ∧
    (TripleCar.update switchDemoU switchDemoTC (1/100) (1/2) 10).switchingCars
      = false ∧
    (TripleCar.update switchDemoU switchDemoTC (1/100) (1/2) 10).currentCar
      = Car.Supra ∧
    (TripleCar.update switchDemoU switchDemoTC (1/100) (1/2) 10).m4Voices
      = stopAllSounds switchDemoTC.m4Voices := by
  have hge : (10 : ℚ) - switchDemoTC.switchStartTime ≥
      SUPRA_CROSSFADE_DURATION_MS / 1000 := by
    norm_num [switchDemoTC, SUPRA_CROSSFADE_DURATION_MS]
  obtain ⟨-, -, -, -, hD⟩ :=
    profile_switch switchDemoU switchDemoTC (1/100) (1/2) 10
  obtain ⟨d1, d2, -, d4, -⟩ := hD rfl hge
  refine ⟨rfl, hge, d1, ?_, d4 rfl⟩
  rw [d2]
  rfl

end ThrottleTune
